import Mathlib

/-!
# gst-pylonsrc: camera start-up, grab loop and frame-rate filter

A shallow embedding of `src/plugins/gstpylonsrc.c` and of the counters of
`src/plugins/gstfpsfilter.c`.  The PylonC SDK is outside the repository, so
every answer the SDK gives (result codes, capability flags, grab results) is
an explicit input of the embedded functions, and the SDK calls the plugin
makes are recorded, in order, in a list of `Call`s.

`gst_pylonsrc_start` is one long procedure; it is embedded stage by stage,
one definition per commented block of the source, each named
`gst_pylonsrc_start_<block>`.
-/

namespace PylonSrc

/-! ## Shared types -/

/-- Result code of a PylonC call: `GENAPI_E_OK`, or any other code. -/
inductive GenApiResult where
  | ok
  | failed
  deriving DecidableEq, Repr

/-- SDK calls and helper calls made by the plugin, as they appear in the source.
Library initialisation and termination (`PylonInitialize`, `PylonTerminate`),
capability queries and logging are not recorded. -/
inductive Call where
  | PylonEnumerateDevices
  | PylonCreateDeviceByIndex (index : Nat)
  | PylonDeviceOpen (index : Nat)
  | PylonDeviceClose (index : Nat)
  | PylonDestroyDevice (index : Nat)
  | pylonc_print_camera_info (deviceId : Nat)
  | PylonDeviceSetBooleanFeature (feature : String) (value : Bool)
  | PylonDeviceSetIntegerFeature (feature : String) (value : Int)
  | PylonDeviceSetFloatFeature (feature : String) (value : ℚ)
  | PylonDeviceFeatureFromString (feature : String) (value : String)
  | PylonDeviceExecuteCommandFeature (feature : String)
  | PylonDeviceGetBooleanFeature (feature : String)
  | PylonWaitObjectWait (timeoutMs : Nat)
  | PylonStreamGrabberRetrieveResult
  | PylonStreamGrabberRegisterBuffer (index : Nat)
  | PylonStreamGrabberQueueBuffer (context : Nat)
  | gst_buffer_new_and_alloc (size : Int)
  | PylonDeviceGetIntegerFeature (feature : String)
  /-- The call `PylonDeviceClose(deviceHandle)` of the listing loop in an
  iteration whose `PylonCreateDeviceByIndex` failed: the local `deviceHandle` is
  declared without an initialiser and no device was stored in it, so the handle
  passed is whatever its storage holds (for instance the handle of the device
  of the iteration before, already closed and destroyed). -/
  | PylonDeviceCloseUninitialised
  /-- The call `PylonDestroyDevice(deviceHandle)` on the same handle. -/
  | PylonDestroyDeviceUninitialised
  deriving DecidableEq, Repr

/-- The way `gst_pylonsrc_start` reaches its `error:` label.
`pylonc` is the `PYLONC_CHECK_ERROR` macro (the PylonC message is logged and
no element error is posted); `element debug` is a `GST_ELEMENT_ERROR` whose
debug text is `debug`. -/
inductive StartError where
  | pylonc
  | element (debug : String)
  deriving DecidableEq, Repr

/-- The fields of `GstPylonsrc` read or written by the embedded code, in the
order in which `gst_pylonsrc_init` assigns them.  The default values are those
assigned by `gst_pylonsrc_init`; `maxWidth`, `maxHeight`, `frameNumber` and
`payloadSize` are not assigned there and start at the zero of a freshly
allocated GObject instance.  `double` fields are only ever compared and passed
on, never computed with, and are held as rationals.  `cameraId` is a `gint`
whose property range is 0..100 and whose initial value is 9999, so it is never
negative. -/
structure GstPylonsrc where
  continuousMode : Bool := true
  limitBandwidth : Bool := true
  setFPS : Bool := false
  demosaicing : Bool := false
  centerx : Bool := false
  centery : Bool := false
  flipx : Bool := false
  flipy : Bool := false
  offsetx : Int := 99999
  offsety : Int := 99999
  cameraId : Nat := 9999
  height : Int := 0
  width : Int := 0
  maxBandwidth : Int := 0
  testImage : Int := 0
  sensorMode : String := "normal"
  lightsource : String := "5000k"
  autoexposure : String := "off"
  autowhitebalance : String := "off"
  autogain : String := "off"
  reset : String := "off"
  imageFormat : String := "bayer8"
  userid : String := ""
  autoprofile : String := "default"
  transformationselector : String := "default"
  fps : ℚ := 0
  exposure : ℚ := 0
  gain : ℚ := 0
  blacklevel : ℚ := 0
  gamma : ℚ := 1
  balancered : ℚ := 999
  balancegreen : ℚ := 999
  balanceblue : ℚ := 999
  redhue : ℚ := 999
  redsaturation : ℚ := 999
  yellowhue : ℚ := 999
  yellowsaturation : ℚ := 999
  greenhue : ℚ := 999
  greensaturation : ℚ := 999
  cyanhue : ℚ := 999
  cyansaturation : ℚ := 999
  bluehue : ℚ := 999
  bluesaturation : ℚ := 999
  magentahue : ℚ := 999
  magentasaturation : ℚ := 999
  sharpnessenhancement : ℚ := 999
  noisereduction : ℚ := 999
  autoexposureupperlimit : ℚ := 9999999
  autoexposurelowerlimit : ℚ := 9999999
  gainupperlimit : ℚ := 999
  gainlowerlimit : ℚ := 999
  brightnesstarget : ℚ := 999
  transformation00 : ℚ := 999
  transformation01 : ℚ := 999
  transformation02 : ℚ := 999
  transformation10 : ℚ := 999
  transformation11 : ℚ := 999
  transformation12 : ℚ := 999
  transformation20 : ℚ := 999
  transformation21 : ℚ := 999
  transformation22 : ℚ := 999
  maxWidth : Int := 0
  maxHeight : Int := 0
  frameNumber : Nat := 0
  payloadSize : Int := 0
  deriving DecidableEq

/-- The record as `gst_pylonsrc_init` leaves it. -/
def gst_pylonsrc_init : GstPylonsrc := {}

/-! ## Properties (`gst_pylonsrc_class_init`, `gst_pylonsrc_set_property`, `gst_pylonsrc_get_property`) -/

/-- The property identifiers of the `enum` of parameters, without `PROP_0`. -/
inductive Property where
  | PROP_CAMERA
  | PROP_HEIGHT
  | PROP_WIDTH
  | PROP_LIMITBANDWIDTH
  | PROP_MAXBANDWIDTH
  | PROP_SENSORREADOUTMODE
  | PROP_ACQUISITIONFRAMERATEENABLE
  | PROP_FPS
  | PROP_LIGHTSOURCE
  | PROP_AUTOEXPOSURE
  | PROP_EXPOSURE
  | PROP_AUTOWHITEBALANCE
  | PROP_BALANCERED
  | PROP_BALANCEGREEN
  | PROP_BALANCEBLUE
  | PROP_COLORREDHUE
  | PROP_COLORREDSATURATION
  | PROP_COLORYELLOWHUE
  | PROP_COLORYELLOWSATURATION
  | PROP_COLORGREENHUE
  | PROP_COLORGREENSATURATION
  | PROP_COLORCYANHUE
  | PROP_COLORCYANSATURATION
  | PROP_COLORBLUEHUE
  | PROP_COLORBLUESATURATION
  | PROP_COLORMAGENTAHUE
  | PROP_COLORMAGENTASATURATION
  | PROP_AUTOGAIN
  | PROP_GAIN
  | PROP_BLACKLEVEL
  | PROP_GAMMA
  | PROP_RESET
  | PROP_TESTIMAGE
  | PROP_CONTINUOUSMODE
  | PROP_IMAGEFORMAT
  | PROP_USERID
  | PROP_BASLERDEMOSAICING
  | PROP_DEMOSAICINGNOISEREDUCTION
  | PROP_DEMOSAICINGSHARPNESSENHANCEMENT
  | PROP_OFFSETX
  | PROP_CENTERX
  | PROP_OFFSETY
  | PROP_CENTERY
  | PROP_FLIPX
  | PROP_FLIPY
  | PROP_AUTOEXPOSUREUPPERLIMIT
  | PROP_AUTOEXPOSURELOWERLIMIT
  | PROP_GAINUPPERLIMIT
  | PROP_GAINLOWERLIMIT
  | PROP_AUTOPROFILE
  | PROP_AUTOBRIGHTNESSTARGET
  | PROP_TRANSFORMATIONSELECTOR
  | PROP_TRANSFORMATION00
  | PROP_TRANSFORMATION01
  | PROP_TRANSFORMATION02
  | PROP_TRANSFORMATION10
  | PROP_TRANSFORMATION11
  | PROP_TRANSFORMATION12
  | PROP_TRANSFORMATION20
  | PROP_TRANSFORMATION21
  | PROP_TRANSFORMATION22
  deriving DecidableEq, Repr

/-- A `GValue` of one of the five fundamental types the element uses. -/
inductive GValue where
  | int (v : Int)
  | int64 (v : Int)
  | double (v : ℚ)
  | boolean (v : Bool)
  | string (v : String)
  deriving DecidableEq, Repr

/-- The GLib accessor `g_value_get_int`; on a value of another type GLib
logs a critical warning and returns 0. -/
def g_value_get_int : GValue → Int
  | .int v => v
  | _ => 0

/-- The GLib accessor `g_value_get_int64`, 0 on a value of another type. -/
def g_value_get_int64 : GValue → Int
  | .int64 v => v
  | _ => 0

/-- The GLib accessor `g_value_get_double`, 0 on a value of another type. -/
def g_value_get_double : GValue → ℚ
  | .double v => v
  | _ => 0

/-- The GLib accessor `g_value_get_boolean`, `FALSE` on a value of another type. -/
def g_value_get_boolean : GValue → Bool
  | .boolean v => v
  | _ => false

/-- The GLib accessor `g_value_dup_string`; `NULL`, held as the empty string,
on a value of another type. -/
def g_value_dup_string : GValue → String
  | .string v => v
  | _ => ""

/-- The function `gst_pylonsrc_set_property`, one case per `case` of its
`switch`. -/
def gst_pylonsrc_set_property (pylonsrc : GstPylonsrc) (property_id : Property)
    (value : GValue) : GstPylonsrc :=
  match property_id with
  | .PROP_CAMERA => { pylonsrc with cameraId := (g_value_get_int value).toNat }
  | .PROP_HEIGHT => { pylonsrc with height := g_value_get_int value }
  | .PROP_WIDTH => { pylonsrc with width := g_value_get_int value }
  | .PROP_OFFSETX => { pylonsrc with offsetx := g_value_get_int value }
  | .PROP_OFFSETY => { pylonsrc with offsety := g_value_get_int value }
  | .PROP_TESTIMAGE => { pylonsrc with testImage := g_value_get_int value }
  | .PROP_SENSORREADOUTMODE => { pylonsrc with sensorMode := g_value_dup_string value }
  | .PROP_LIGHTSOURCE => { pylonsrc with lightsource := g_value_dup_string value }
  | .PROP_AUTOEXPOSURE => { pylonsrc with autoexposure := g_value_dup_string value }
  | .PROP_AUTOWHITEBALANCE => { pylonsrc with autowhitebalance := g_value_dup_string value }
  | .PROP_IMAGEFORMAT => { pylonsrc with imageFormat := g_value_dup_string value }
  | .PROP_AUTOGAIN => { pylonsrc with autogain := g_value_dup_string value }
  | .PROP_RESET => { pylonsrc with reset := g_value_dup_string value }
  | .PROP_AUTOPROFILE => { pylonsrc with autoprofile := g_value_dup_string value }
  | .PROP_TRANSFORMATIONSELECTOR => { pylonsrc with transformationselector := g_value_dup_string value }
  | .PROP_USERID => { pylonsrc with userid := g_value_dup_string value }
  | .PROP_BALANCERED => { pylonsrc with balancered := g_value_get_double value }
  | .PROP_BALANCEGREEN => { pylonsrc with balancegreen := g_value_get_double value }
  | .PROP_BALANCEBLUE => { pylonsrc with balanceblue := g_value_get_double value }
  | .PROP_COLORREDHUE => { pylonsrc with redhue := g_value_get_double value }
  | .PROP_COLORREDSATURATION => { pylonsrc with redsaturation := g_value_get_double value }
  | .PROP_COLORYELLOWHUE => { pylonsrc with yellowhue := g_value_get_double value }
  | .PROP_COLORYELLOWSATURATION => { pylonsrc with yellowsaturation := g_value_get_double value }
  | .PROP_COLORGREENHUE => { pylonsrc with greenhue := g_value_get_double value }
  | .PROP_COLORGREENSATURATION => { pylonsrc with greensaturation := g_value_get_double value }
  | .PROP_COLORCYANHUE => { pylonsrc with cyanhue := g_value_get_double value }
  | .PROP_COLORCYANSATURATION => { pylonsrc with cyansaturation := g_value_get_double value }
  | .PROP_COLORBLUEHUE => { pylonsrc with bluehue := g_value_get_double value }
  | .PROP_COLORBLUESATURATION => { pylonsrc with bluesaturation := g_value_get_double value }
  | .PROP_COLORMAGENTAHUE => { pylonsrc with magentahue := g_value_get_double value }
  | .PROP_COLORMAGENTASATURATION => { pylonsrc with magentasaturation := g_value_get_double value }
  | .PROP_MAXBANDWIDTH => { pylonsrc with maxBandwidth := g_value_get_int64 value }
  | .PROP_FLIPX => { pylonsrc with flipx := g_value_get_boolean value }
  | .PROP_FLIPY => { pylonsrc with flipy := g_value_get_boolean value }
  | .PROP_CENTERX => { pylonsrc with centerx := g_value_get_boolean value }
  | .PROP_CENTERY => { pylonsrc with centery := g_value_get_boolean value }
  | .PROP_LIMITBANDWIDTH => { pylonsrc with limitBandwidth := g_value_get_boolean value }
  | .PROP_ACQUISITIONFRAMERATEENABLE => { pylonsrc with setFPS := g_value_get_boolean value }
  | .PROP_CONTINUOUSMODE => { pylonsrc with continuousMode := g_value_get_boolean value }
  | .PROP_BASLERDEMOSAICING => { pylonsrc with demosaicing := g_value_get_boolean value }
  | .PROP_FPS => { pylonsrc with fps := g_value_get_double value }
  | .PROP_EXPOSURE => { pylonsrc with exposure := g_value_get_double value }
  | .PROP_GAIN => { pylonsrc with gain := g_value_get_double value }
  | .PROP_BLACKLEVEL => { pylonsrc with blacklevel := g_value_get_double value }
  | .PROP_GAMMA => { pylonsrc with gamma := g_value_get_double value }
  | .PROP_DEMOSAICINGNOISEREDUCTION => { pylonsrc with noisereduction := g_value_get_double value }
  | .PROP_AUTOEXPOSUREUPPERLIMIT => { pylonsrc with autoexposureupperlimit := g_value_get_double value }
  | .PROP_AUTOEXPOSURELOWERLIMIT => { pylonsrc with autoexposurelowerlimit := g_value_get_double value }
  | .PROP_GAINLOWERLIMIT => { pylonsrc with gainlowerlimit := g_value_get_double value }
  | .PROP_GAINUPPERLIMIT => { pylonsrc with gainupperlimit := g_value_get_double value }
  | .PROP_AUTOBRIGHTNESSTARGET => { pylonsrc with brightnesstarget := g_value_get_double value }
  | .PROP_DEMOSAICINGSHARPNESSENHANCEMENT => { pylonsrc with sharpnessenhancement := g_value_get_double value }
  | .PROP_TRANSFORMATION00 => { pylonsrc with transformation00 := g_value_get_double value }
  | .PROP_TRANSFORMATION01 => { pylonsrc with transformation01 := g_value_get_double value }
  | .PROP_TRANSFORMATION02 => { pylonsrc with transformation02 := g_value_get_double value }
  | .PROP_TRANSFORMATION10 => { pylonsrc with transformation10 := g_value_get_double value }
  | .PROP_TRANSFORMATION11 => { pylonsrc with transformation11 := g_value_get_double value }
  | .PROP_TRANSFORMATION12 => { pylonsrc with transformation12 := g_value_get_double value }
  | .PROP_TRANSFORMATION20 => { pylonsrc with transformation20 := g_value_get_double value }
  | .PROP_TRANSFORMATION21 => { pylonsrc with transformation21 := g_value_get_double value }
  | .PROP_TRANSFORMATION22 => { pylonsrc with transformation22 := g_value_get_double value }

/-- The function `gst_pylonsrc_get_property`, one case per `case` of its
`switch`.  The case `PROP_AUTOPROFILE` has no `break`: after storing
`autoprofile` it falls through into the case `PROP_TRANSFORMATIONSELECTOR`,
whose `g_value_set_string` replaces the stored string. -/
def gst_pylonsrc_get_property (pylonsrc : GstPylonsrc) (property_id : Property) : GValue :=
  match property_id with
  | .PROP_CAMERA => .int pylonsrc.cameraId
  | .PROP_HEIGHT => .int pylonsrc.height
  | .PROP_WIDTH => .int pylonsrc.width
  | .PROP_OFFSETX => .int pylonsrc.offsetx
  | .PROP_OFFSETY => .int pylonsrc.offsety
  | .PROP_TESTIMAGE => .int pylonsrc.testImage
  | .PROP_SENSORREADOUTMODE => .string pylonsrc.sensorMode
  | .PROP_LIGHTSOURCE => .string pylonsrc.lightsource
  | .PROP_AUTOEXPOSURE => .string pylonsrc.autoexposure
  | .PROP_AUTOWHITEBALANCE => .string pylonsrc.autowhitebalance
  | .PROP_IMAGEFORMAT => .string pylonsrc.imageFormat
  | .PROP_USERID => .string pylonsrc.userid
  | .PROP_AUTOGAIN => .string pylonsrc.autogain
  | .PROP_RESET => .string pylonsrc.reset
  | .PROP_AUTOPROFILE => .string pylonsrc.transformationselector
  | .PROP_TRANSFORMATIONSELECTOR => .string pylonsrc.transformationselector
  | .PROP_BALANCERED => .double pylonsrc.balancered
  | .PROP_BALANCEGREEN => .double pylonsrc.balancegreen
  | .PROP_BALANCEBLUE => .double pylonsrc.balanceblue
  | .PROP_COLORREDHUE => .double pylonsrc.redhue
  | .PROP_COLORREDSATURATION => .double pylonsrc.redsaturation
  | .PROP_COLORYELLOWHUE => .double pylonsrc.yellowhue
  | .PROP_COLORYELLOWSATURATION => .double pylonsrc.yellowsaturation
  | .PROP_COLORGREENHUE => .double pylonsrc.greenhue
  | .PROP_COLORGREENSATURATION => .double pylonsrc.greensaturation
  | .PROP_COLORCYANHUE => .double pylonsrc.cyanhue
  | .PROP_COLORCYANSATURATION => .double pylonsrc.cyansaturation
  | .PROP_COLORBLUEHUE => .double pylonsrc.bluehue
  | .PROP_COLORBLUESATURATION => .double pylonsrc.bluesaturation
  | .PROP_COLORMAGENTAHUE => .double pylonsrc.magentahue
  | .PROP_COLORMAGENTASATURATION => .double pylonsrc.magentasaturation
  | .PROP_MAXBANDWIDTH => .int64 pylonsrc.maxBandwidth
  | .PROP_FLIPX => .boolean pylonsrc.flipx
  | .PROP_FLIPY => .boolean pylonsrc.flipy
  | .PROP_CENTERX => .boolean pylonsrc.centerx
  | .PROP_CENTERY => .boolean pylonsrc.centery
  | .PROP_LIMITBANDWIDTH => .boolean pylonsrc.limitBandwidth
  | .PROP_ACQUISITIONFRAMERATEENABLE => .boolean pylonsrc.setFPS
  | .PROP_CONTINUOUSMODE => .boolean pylonsrc.continuousMode
  | .PROP_BASLERDEMOSAICING => .boolean pylonsrc.demosaicing
  | .PROP_FPS => .double pylonsrc.fps
  | .PROP_EXPOSURE => .double pylonsrc.exposure
  | .PROP_GAIN => .double pylonsrc.gain
  | .PROP_BLACKLEVEL => .double pylonsrc.blacklevel
  | .PROP_GAMMA => .double pylonsrc.gamma
  | .PROP_DEMOSAICINGNOISEREDUCTION => .double pylonsrc.noisereduction
  | .PROP_DEMOSAICINGSHARPNESSENHANCEMENT => .double pylonsrc.sharpnessenhancement
  | .PROP_AUTOEXPOSUREUPPERLIMIT => .double pylonsrc.sharpnessenhancement
  | .PROP_AUTOEXPOSURELOWERLIMIT => .double pylonsrc.sharpnessenhancement
  | .PROP_GAINLOWERLIMIT => .double pylonsrc.sharpnessenhancement
  | .PROP_GAINUPPERLIMIT => .double pylonsrc.sharpnessenhancement
  | .PROP_AUTOBRIGHTNESSTARGET => .double pylonsrc.sharpnessenhancement
  | .PROP_TRANSFORMATION00 => .double pylonsrc.transformation00
  | .PROP_TRANSFORMATION01 => .double pylonsrc.transformation01
  | .PROP_TRANSFORMATION02 => .double pylonsrc.transformation02
  | .PROP_TRANSFORMATION10 => .double pylonsrc.transformation10
  | .PROP_TRANSFORMATION11 => .double pylonsrc.transformation11
  | .PROP_TRANSFORMATION12 => .double pylonsrc.transformation12
  | .PROP_TRANSFORMATION20 => .double pylonsrc.transformation20
  | .PROP_TRANSFORMATION21 => .double pylonsrc.transformation21
  | .PROP_TRANSFORMATION22 => .double pylonsrc.transformation22

/-- The numeric range of a property as declared in `gst_pylonsrc_class_init`:
the minimum and the maximum given to `g_param_spec_int`, `g_param_spec_int64`
or `g_param_spec_double`. -/
structure ParamRange where
  minimum : ℚ
  maximum : ℚ
  deriving DecidableEq

/-- The declared range of every numeric property, in the order of
`gst_pylonsrc_class_init`; `none` for boolean and string properties. -/
def gst_pylonsrc_class_init : Property → Option ParamRange
  | .PROP_CAMERA => some ⟨0, 100⟩
  | .PROP_HEIGHT => some ⟨0, 10000⟩
  | .PROP_WIDTH => some ⟨0, 10000⟩
  | .PROP_LIMITBANDWIDTH => none
  | .PROP_MAXBANDWIDTH => some ⟨0, 999999999⟩
  | .PROP_SENSORREADOUTMODE => none
  | .PROP_ACQUISITIONFRAMERATEENABLE => none
  | .PROP_FPS => some ⟨0, 1024⟩
  | .PROP_LIGHTSOURCE => none
  | .PROP_AUTOEXPOSURE => none
  | .PROP_EXPOSURE => some ⟨0, 1000000⟩
  | .PROP_AUTOWHITEBALANCE => none
  | .PROP_BALANCERED => some ⟨0, 15.9⟩
  | .PROP_BALANCEGREEN => some ⟨0, 15.9⟩
  | .PROP_BALANCEBLUE => some ⟨0, 15.9⟩
  | .PROP_COLORREDHUE => some ⟨(-4), 3.9⟩
  | .PROP_COLORREDSATURATION => some ⟨0, 1.9⟩
  | .PROP_COLORYELLOWHUE => some ⟨(-4), 3.9⟩
  | .PROP_COLORYELLOWSATURATION => some ⟨0, 1.9⟩
  | .PROP_COLORGREENHUE => some ⟨(-4), 3.9⟩
  | .PROP_COLORGREENSATURATION => some ⟨0, 1.9⟩
  | .PROP_COLORCYANHUE => some ⟨(-4), 3.9⟩
  | .PROP_COLORCYANSATURATION => some ⟨0, 1.9⟩
  | .PROP_COLORBLUEHUE => some ⟨(-4), 3.9⟩
  | .PROP_COLORBLUESATURATION => some ⟨0, 1.9⟩
  | .PROP_COLORMAGENTAHUE => some ⟨(-4), 3.9⟩
  | .PROP_COLORMAGENTASATURATION => some ⟨0, 1.9⟩
  | .PROP_AUTOGAIN => none
  | .PROP_GAIN => some ⟨0, 12⟩
  | .PROP_BLACKLEVEL => some ⟨0, 63.75⟩
  | .PROP_GAMMA => some ⟨0, 3.9⟩
  | .PROP_RESET => none
  | .PROP_TESTIMAGE => some ⟨0, 6⟩
  | .PROP_CONTINUOUSMODE => none
  | .PROP_IMAGEFORMAT => none
  | .PROP_USERID => none
  | .PROP_BASLERDEMOSAICING => none
  | .PROP_DEMOSAICINGNOISEREDUCTION => some ⟨0, 2⟩
  | .PROP_DEMOSAICINGSHARPNESSENHANCEMENT => some ⟨1, 3.98⟩
  | .PROP_OFFSETX => some ⟨0, 10000⟩
  | .PROP_OFFSETY => some ⟨0, 10000⟩
  | .PROP_CENTERX => none
  | .PROP_CENTERY => none
  | .PROP_FLIPX => none
  | .PROP_FLIPY => none
  | .PROP_AUTOEXPOSURELOWERLIMIT => some ⟨105, 1000000⟩
  | .PROP_AUTOEXPOSUREUPPERLIMIT => some ⟨105, 1000000⟩
  | .PROP_GAINUPPERLIMIT => some ⟨0, 12.00921⟩
  | .PROP_GAINLOWERLIMIT => some ⟨0, 12.00921⟩
  | .PROP_AUTOBRIGHTNESSTARGET => some ⟨0.19608, 0.80392⟩
  | .PROP_AUTOPROFILE => none
  | .PROP_TRANSFORMATION00 => some ⟨(-8), 7.96875⟩
  | .PROP_TRANSFORMATION01 => some ⟨(-8), 7.96875⟩
  | .PROP_TRANSFORMATION02 => some ⟨(-8), 7.96875⟩
  | .PROP_TRANSFORMATION10 => some ⟨(-8), 7.96875⟩
  | .PROP_TRANSFORMATION11 => some ⟨(-8), 7.96875⟩
  | .PROP_TRANSFORMATION12 => some ⟨(-8), 7.96875⟩
  | .PROP_TRANSFORMATION20 => some ⟨(-8), 7.96875⟩
  | .PROP_TRANSFORMATION21 => some ⟨(-8), 7.96875⟩
  | .PROP_TRANSFORMATION22 => some ⟨(-8), 7.96875⟩
  | .PROP_TRANSFORMATIONSELECTOR => none

/-- The number held by a numeric `GValue` (0 for a boolean or a string). -/
def GValue.toRat : GValue → ℚ
  | .int v => v
  | .int64 v => v
  | .double v => v
  | _ => 0

/-- The "not set" constants of `gst_pylonsrc_start`: for each property whose
field the start-up code compares with a fixed constant to decide that the
user did not set it (`cameraId != 9999`, `height != 0 || width != 0`,
`offsetx != 99999`, `maxBandwidth != 0`, `fps != 0`, `exposure != 0.0`,
`... != 999.0`, `... != 9999999.0`), that constant as a value of the type of
the property; `none` for the other properties. -/
def unsetMarker : Property → Option GValue
  | .PROP_CAMERA => some (.int 9999)
  | .PROP_HEIGHT => some (.int 0)
  | .PROP_WIDTH => some (.int 0)
  | .PROP_OFFSETX => some (.int 99999)
  | .PROP_OFFSETY => some (.int 99999)
  | .PROP_MAXBANDWIDTH => some (.int64 0)
  | .PROP_FPS => some (.double 0)
  | .PROP_EXPOSURE => some (.double 0)
  | .PROP_BALANCERED => some (.double 999)
  | .PROP_BALANCEGREEN => some (.double 999)
  | .PROP_BALANCEBLUE => some (.double 999)
  | .PROP_COLORREDHUE => some (.double 999)
  | .PROP_COLORREDSATURATION => some (.double 999)
  | .PROP_COLORYELLOWHUE => some (.double 999)
  | .PROP_COLORYELLOWSATURATION => some (.double 999)
  | .PROP_COLORGREENHUE => some (.double 999)
  | .PROP_COLORGREENSATURATION => some (.double 999)
  | .PROP_COLORCYANHUE => some (.double 999)
  | .PROP_COLORCYANSATURATION => some (.double 999)
  | .PROP_COLORBLUEHUE => some (.double 999)
  | .PROP_COLORBLUESATURATION => some (.double 999)
  | .PROP_COLORMAGENTAHUE => some (.double 999)
  | .PROP_COLORMAGENTASATURATION => some (.double 999)
  | .PROP_AUTOEXPOSUREUPPERLIMIT => some (.double 9999999)
  | .PROP_AUTOEXPOSURELOWERLIMIT => some (.double 9999999)
  | .PROP_GAINLOWERLIMIT => some (.double 999)
  | .PROP_GAINUPPERLIMIT => some (.double 999)
  | .PROP_AUTOBRIGHTNESSTARGET => some (.double 999)
  | .PROP_DEMOSAICINGNOISEREDUCTION => some (.double 999)
  | .PROP_DEMOSAICINGSHARPNESSENHANCEMENT => some (.double 999)
  | .PROP_TRANSFORMATION00 => some (.double 999)
  | .PROP_TRANSFORMATION01 => some (.double 999)
  | .PROP_TRANSFORMATION02 => some (.double 999)
  | .PROP_TRANSFORMATION10 => some (.double 999)
  | .PROP_TRANSFORMATION11 => some (.double 999)
  | .PROP_TRANSFORMATION12 => some (.double 999)
  | .PROP_TRANSFORMATION20 => some (.double 999)
  | .PROP_TRANSFORMATION21 => some (.double 999)
  | .PROP_TRANSFORMATION22 => some (.double 999)
  | _ => none

/-- The GLib function `g_ascii_tolower`: the lowercase of an ASCII capital
letter, any other character unchanged. -/
def g_ascii_tolower (c : Char) : Char :=
  if 'A' ≤ c ∧ c ≤ 'Z' then Char.ofNat (c.toNat + 32) else c

/-- The GLib function `g_ascii_strdown(str, -1)`. -/
def g_ascii_strdown (str : String) : String :=
  ⟨str.data.map g_ascii_tolower⟩

/-! ## Device selection (`gst_pylonsrc_start`, "Select a device") -/

/-- Answers of the SDK for one device of the listing loop: the result of
`PylonCreateDeviceByIndex` and, when that succeeded, of `PylonDeviceOpen`. -/
structure ListingReply where
  create : GenApiResult
  opened : GenApiResult
  deriving DecidableEq, Repr

/-- The listing loop `for(i=0; i<numDevices; i++)` of the multiple-camera
branch, started at index `i` with `remaining = numDevices - i` iterations to
go.  The boolean is `false` when `PYLONC_CHECK_ERROR` after `PylonDeviceOpen`
jumped to `error`, which ends the loop at once.  `PylonDeviceClose` and
`PylonDestroyDevice` stand after the `if`/`else` and are called in both
branches; after a failed `PylonCreateDeviceByIndex` they receive the local
`deviceHandle` that no device was stored in. -/
def listCameras (reply : Nat → ListingReply) (i : Nat) : Nat → List Call × Bool
  | 0 => ([], true)
  | remaining + 1 =>
    match (reply i).create with
    | .ok =>
      match (reply i).opened with
      | .failed => ([.PylonCreateDeviceByIndex i, .PylonDeviceOpen i], false)
      | .ok =>
        let rest := listCameras reply (i + 1) remaining
        ([.PylonCreateDeviceByIndex i, .PylonDeviceOpen i, .pylonc_print_camera_info i,
          .PylonDeviceClose i, .PylonDestroyDevice i] ++ rest.1, rest.2)
    | .failed =>
      let rest := listCameras reply (i + 1) remaining
      ([.PylonCreateDeviceByIndex i, .PylonDeviceCloseUninitialised,
        .PylonDestroyDeviceUninitialised] ++ rest.1, rest.2)

/-- Where control is after the device-selection block of `gst_pylonsrc_start`:
at the `error:` label, or at the call `pylonc_connect_camera(pylonsrc)` with
`pylonsrc->cameraId` holding `cameraId`. -/
inductive Selection where
  | error (e : StartError)
  | connect (cameraId : Nat)
  deriving DecidableEq, Repr

/-- The device-selection block of `gst_pylonsrc_start` (from
`PylonEnumerateDevices` up to, not including, `pylonc_connect_camera`).
`enumRes` and `numDevices` are the answer of `PylonEnumerateDevices`, `reply`
the answers of the listing loop. -/
def gst_pylonsrc_start_select_device (pylonsrc : GstPylonsrc) (enumRes : GenApiResult)
    (numDevices : Nat) (reply : Nat → ListingReply) : List Call × Selection :=
  match enumRes with
  | .failed => ([.PylonEnumerateDevices], .error .pylonc)
  | .ok =>
    if numDevices = 0 then
      ([.PylonEnumerateDevices], .error (.element "No camera connected"))
    else if numDevices = 1 then
      ([.PylonEnumerateDevices], .connect 0)
    else if numDevices > 1 ∧ pylonsrc.cameraId = 9999 then
      let listing := listCameras reply 0 numDevices
      if listing.2 then
        (.PylonEnumerateDevices :: listing.1, .error (.element "No camera selected"))
      else
        (.PylonEnumerateDevices :: listing.1, .error .pylonc)
    else if pylonsrc.cameraId ≠ 9999 ∧ pylonsrc.cameraId > numDevices then
      ([.PylonEnumerateDevices], .error (.element "No camera connected"))
    else
      ([.PylonEnumerateDevices], .connect pylonsrc.cameraId)

/-- The function `pylonc_connect_camera`: creates the device with index
`pylonsrc->cameraId` and opens it.  Returns the calls made and the new value
of the global `deviceConnected` when the function returns `TRUE`, or `none`
when it returns `FALSE` (the global is then left as it was). -/
def pylonc_connect_camera (cameraId : Nat) (createRes openRes : GenApiResult) :
    List Call × Option Bool :=
  match createRes with
  | .failed => ([.PylonCreateDeviceByIndex cameraId], none)
  | .ok =>
    match openRes with
    | .failed => ([.PylonCreateDeviceByIndex cameraId, .PylonDeviceOpen cameraId], none)
    | .ok => ([.PylonCreateDeviceByIndex cameraId, .PylonDeviceOpen cameraId], some true)

/-- The start of `gst_pylonsrc_start` through the connection attempt: device
selection followed, unless it jumped to `error`, by `pylonc_connect_camera`
and the check of its result. -/
def gst_pylonsrc_start_connect (pylonsrc : GstPylonsrc) (enumRes : GenApiResult)
    (numDevices : Nat) (reply : Nat → ListingReply) (createRes openRes : GenApiResult) :
    List Call × Except StartError GstPylonsrc :=
  match gst_pylonsrc_start_select_device pylonsrc enumRes numDevices reply with
  | (calls, .error e) => (calls, .error e)
  | (calls, .connect id) =>
    match pylonc_connect_camera id createRes openRes with
    | (calls2, none) => (calls ++ calls2, .error (.element "No camera connected"))
    | (calls2, some _) => (calls ++ calls2, .ok { pylonsrc with cameraId := id })

/-! ## Offsets (`gst_pylonsrc_start`, "Set the offset") -/

/-- The two-letter pattern printed into the local `filter` string in the
Bayer branch of the pixel-format block. -/
def gst_pylonsrc_start_bayer_filter (flipx flipy : Bool) : String :=
  if flipx = false ∧ flipy = false then "BG"
  else if flipx = true ∧ flipy = false then "GB"
  else if flipx = false ∧ flipy = true then "GR"
  else "RG"

/-- The `pixelFormat` string of the Bayer branch,
`g_string_printf(pixelFormat, "Bayer%s%s", filter->str, &pylonsrc->imageFormat[5])`,
for an image format that starts with "bayer". -/
def gst_pylonsrc_start_bayer_pixel_format (pylonsrc : GstPylonsrc) : String :=
  "Bayer" ++ gst_pylonsrc_start_bayer_filter pylonsrc.flipx pylonsrc.flipy
    ++ pylonsrc.imageFormat.drop 5

/-! ## Auto-exposure limits (`gst_pylonsrc_start`, "Configure automatic exposure and gain settings") -/

/-- Answers of the device during the two auto-exposure limit blocks. -/
structure ExposureLimitReply where
  availUpper : Bool
  setUpper : GenApiResult
  availLower : Bool
  setLower : GenApiResult
  deriving DecidableEq, Repr

/-- The block `if(pylonsrc->autoexposureupperlimit != 9999999.0) {...}`. -/
def gst_pylonsrc_start_exposure_upper_limit (pylonsrc : GstPylonsrc) (dev : ExposureLimitReply) :
    List Call × Option StartError :=
  if pylonsrc.autoexposureupperlimit ≠ 9999999 then
    if dev.availUpper = true then
      match dev.setUpper with
      | .ok =>
        ([.PylonDeviceSetFloatFeature "AutoExposureTimeUpperLimit"
            pylonsrc.autoexposureupperlimit], none)
      | .failed =>
        ([.PylonDeviceSetFloatFeature "AutoExposureTimeUpperLimit"
            pylonsrc.autoexposureupperlimit], some .pylonc)
    else
      ([], none)
  else
    ([], none)

/-- The block `if(pylonsrc->autoexposurelowerlimit != 9999999.0) {...}`. -/
def gst_pylonsrc_start_exposure_lower_limit (pylonsrc : GstPylonsrc) (dev : ExposureLimitReply) :
    List Call × Option StartError :=
  if pylonsrc.autoexposurelowerlimit ≠ 9999999 then
    if pylonsrc.autoexposurelowerlimit ≥ pylonsrc.autoexposureupperlimit then
      ([], some (.element "Invalid parameters provided"))
    else if dev.availLower = true then
      match dev.setLower with
      | .ok =>
        ([.PylonDeviceSetFloatFeature "AutoExposureTimeLowerLimit"
            pylonsrc.autoexposurelowerlimit], none)
      | .failed =>
        ([.PylonDeviceSetFloatFeature "AutoExposureTimeLowerLimit"
            pylonsrc.autoexposurelowerlimit], some .pylonc)
    else
      ([], none)
  else
    ([], none)

/-- The two auto-exposure limit blocks in source order: upper limit first,
then lower limit.  The result is the list of device writes issued by the two
blocks and `some e` when one of them jumps to `error`. -/
def gst_pylonsrc_start_auto_exposure_limits (pylonsrc : GstPylonsrc) (dev : ExposureLimitReply) :
    List Call × Option StartError :=
  match gst_pylonsrc_start_exposure_upper_limit pylonsrc dev with
  | (us, some e) => (us, some e)
  | (us, none) =>
    match gst_pylonsrc_start_exposure_lower_limit pylonsrc dev with
    | (ls, r) => (us ++ ls, r)

/-! ## Buffer pool and grab loop -/

/-- The constant `NUM_BUFFERS`. -/
def NUM_BUFFERS : Nat := 10

/-- A streaming session: the element and the buffers that the stream grabber
currently holds, each named by the pool index it was queued with (the
`Context` argument of `PylonStreamGrabberQueueBuffer`).  The grabber belongs
to the SDK; its two operations used here are taken to behave as the SDK
documents them: a successful `PylonStreamGrabberQueueBuffer` hands a buffer to
the grabber, and a `PylonStreamGrabberRetrieveResult` that reports a result
hands the buffer named in the result back to the caller. -/
structure Session where
  pylonsrc : GstPylonsrc
  queued : List Nat
  deriving DecidableEq

/-- The loop `for(i = 0; i < NUM_BUFFERS; ++i)` around
`PylonStreamGrabberRegisterBuffer`, started at `i` with `remaining` iterations
to go; `false` when `PYLONC_CHECK_ERROR` jumped to `error`. -/
def registerBuffers (res : Nat → GenApiResult) (i : Nat) : Nat → List Call × Bool
  | 0 => ([], true)
  | remaining + 1 =>
    match res i with
    | .failed => ([.PylonStreamGrabberRegisterBuffer i], false)
    | .ok =>
      let rest := registerBuffers res (i + 1) remaining
      (.PylonStreamGrabberRegisterBuffer i :: rest.1, rest.2)

/-- The loop `for(i = 0; i < NUM_BUFFERS; ++i)` around
`PylonStreamGrabberQueueBuffer(streamGrabber, bufferHandle[i], (void *) i)`:
the calls made and the grabber queue afterwards, or `none` for the queue when
`PYLONC_CHECK_ERROR` jumped to `error`. -/
def queueBuffers (res : Nat → GenApiResult) (i : Nat) (queued : List Nat) :
    Nat → List Call × Option (List Nat)
  | 0 => ([], some queued)
  | remaining + 1 =>
    match res i with
    | .failed => ([.PylonStreamGrabberQueueBuffer i], none)
    | .ok =>
      let rest := queueBuffers res (i + 1) (queued ++ [i]) remaining
      (.PylonStreamGrabberQueueBuffer i :: rest.1, rest.2)

/-- The two buffer loops of `gst_pylonsrc_start` that follow
`PylonStreamGrabberPrepareGrab`: register every buffer, then queue every
buffer.  On success the result is the grabber queue. -/
def gst_pylonsrc_start_queue_buffers (registerRes queueRes : Nat → GenApiResult) :
    List Call × Except StartError (List Nat) :=
  match registerBuffers registerRes 0 NUM_BUFFERS with
  | (calls, false) => (calls, .error .pylonc)
  | (calls, true) =>
    match queueBuffers queueRes 0 [] NUM_BUFFERS with
    | (calls2, none) => (calls ++ calls2, .error .pylonc)
    | (calls2, some queued) => (calls ++ calls2, .ok queued)

/-- The last block of `gst_pylonsrc_start` ("Tell the camera to start
recording"), which ends in the only `return TRUE` of the function. -/
def gst_pylonsrc_start_recording (pylonsrc : GstPylonsrc) (startRes triggerRes : GenApiResult) :
    List Call × Except StartError GstPylonsrc :=
  match startRes with
  | .failed => ([.PylonDeviceExecuteCommandFeature "AcquisitionStart"], .error .pylonc)
  | .ok =>
    if pylonsrc.continuousMode = false then
      match triggerRes with
      | .failed =>
        ([.PylonDeviceExecuteCommandFeature "AcquisitionStart",
          .PylonDeviceExecuteCommandFeature "TriggerSoftware"], .error .pylonc)
      | .ok =>
        ([.PylonDeviceExecuteCommandFeature "AcquisitionStart",
          .PylonDeviceExecuteCommandFeature "TriggerSoftware"],
          .ok { pylonsrc with frameNumber := 0 })
    else
      ([.PylonDeviceExecuteCommandFeature "AcquisitionStart"],
        .ok { pylonsrc with frameNumber := 0 })

/-- The enumeration `EPylonGrabStatus` of the SDK. -/
inductive EPylonGrabStatus where
  | UndefinedGrabStatus
  | Idle
  | Queued
  | Grabbed
  | Canceled
  | Failed
  deriving DecidableEq, Repr

/-- The fields of `PylonGrabResult_t` the plugin reads.  `hBuffer` and
`pBuffer` are the handle and the storage of pool buffer number `Context`. -/
structure PylonGrabResult where
  Context : Nat
  Status : EPylonGrabStatus
  deriving DecidableEq, Repr

/-- Answers of the SDK during one call of `gst_pylonsrc_create`.  The poll loop
`do {...} while (!isReady)` is described for a loop that ends: it reads
`AcquisitionStatus` successfully as not ready `notReadyPolls` times, and the
read after those either fails (`pollRes = failed`) or reports ready.  A device
that never reports ready keeps the call from returning at all. -/
structure CreateReply where
  waitRes : GenApiResult
  waitReady : Bool
  retrieveRes : GenApiResult
  retrieveReady : Bool
  grabResult : PylonGrabResult
  statusAvailable : Bool
  notReadyPolls : Nat
  pollRes : GenApiResult
  triggerRes : GenApiResult
  queueRes : GenApiResult
  deriving DecidableEq, Repr

/-- The values `GST_FLOW_OK` and `GST_FLOW_ERROR` of `GstFlowReturn`. -/
inductive GstFlowReturn where
  | GST_FLOW_OK
  | GST_FLOW_ERROR
  deriving DecidableEq, Repr

/-- The output buffer: its size and the two stamps `GST_BUFFER_OFFSET` and
`GST_BUFFER_OFFSET_END`. -/
structure GstBuffer where
  size : Int
  offset : Nat
  offsetEnd : Nat
  deriving DecidableEq, Repr

/-- What one call of `gst_pylonsrc_create` leaves behind: the return value,
the buffer handed downstream (present exactly when the return value is
`GST_FLOW_OK`), the session afterwards and the calls made. -/
structure CreateResult where
  flow : GstFlowReturn
  buf : Option GstBuffer
  session : Session
  calls : List Call
  deriving DecidableEq

/-- The part of `gst_pylonsrc_create` from "Process the current buffer" on,
entered with the retrieved buffer already taken out of the grabber queue;
`calls` are the calls made so far. -/
def gst_pylonsrc_create_process (s : Session) (r : CreateReply) (calls : List Call) :
    CreateResult :=
  let bufferIndex := r.grabResult.Context
  if r.grabResult.Status = .Grabbed then
    match r.queueRes with
    | .failed =>
      { flow := .GST_FLOW_ERROR, buf := none, session := s,
        calls := calls ++ [.gst_buffer_new_and_alloc s.pylonsrc.payloadSize,
                           .PylonStreamGrabberQueueBuffer bufferIndex] }
    | .ok =>
      { flow := .GST_FLOW_OK,
        buf := some { size := s.pylonsrc.payloadSize,
                      offset := s.pylonsrc.frameNumber,
                      offsetEnd := s.pylonsrc.frameNumber + 1 },
        session := { pylonsrc := { s.pylonsrc with frameNumber := s.pylonsrc.frameNumber + 1 },
                     queued := s.queued ++ [bufferIndex] },
        calls := calls ++ [.gst_buffer_new_and_alloc s.pylonsrc.payloadSize,
                           .PylonStreamGrabberQueueBuffer bufferIndex] }
  else
    { flow := .GST_FLOW_ERROR, buf := none, session := s, calls := calls }

/-- The block `if(!pylonsrc->continuousMode) {...}` of `gst_pylonsrc_create`:
the calls it makes and whether control falls through (`true`) or jumps to
`error` (`false`). -/
def gst_pylonsrc_create_trigger (s : Session) (r : CreateReply) : List Call × Bool :=
  if s.pylonsrc.continuousMode = false then
    let polls : List Call :=
      if r.statusAvailable = true then
        List.replicate (r.notReadyPolls + 1) (.PylonDeviceGetBooleanFeature "AcquisitionStatus")
      else []
    if r.statusAvailable = true ∧ r.pollRes = .failed then
      (polls, false)
    else
      match r.triggerRes with
      | .failed => (polls ++ [.PylonDeviceExecuteCommandFeature "TriggerSoftware"], false)
      | .ok => (polls ++ [.PylonDeviceExecuteCommandFeature "TriggerSoftware"], true)
  else
    ([], true)

/-- The function `gst_pylonsrc_create`. -/
def gst_pylonsrc_create (s : Session) (r : CreateReply) : CreateResult :=
  match r.waitRes with
  | .failed =>
    { flow := .GST_FLOW_ERROR, buf := none, session := s, calls := [.PylonWaitObjectWait 1000] }
  | .ok =>
    if r.waitReady = false then
      { flow := .GST_FLOW_ERROR, buf := none, session := s, calls := [.PylonWaitObjectWait 1000] }
    else
      match r.retrieveRes with
      | .failed =>
        { flow := .GST_FLOW_ERROR, buf := none, session := s,
          calls := [.PylonWaitObjectWait 1000, .PylonStreamGrabberRetrieveResult] }
      | .ok =>
        if r.retrieveReady = false then
          { flow := .GST_FLOW_ERROR, buf := none, session := s,
            calls := [.PylonWaitObjectWait 1000, .PylonStreamGrabberRetrieveResult] }
        else
          let taken : Session := { s with queued := s.queued.erase r.grabResult.Context }
          match gst_pylonsrc_create_trigger taken r with
          | (tcalls, false) =>
            { flow := .GST_FLOW_ERROR, buf := none, session := taken,
              calls := [.PylonWaitObjectWait 1000, .PylonStreamGrabberRetrieveResult] ++ tcalls }
          | (tcalls, true) =>
            gst_pylonsrc_create_process taken r
              ([.PylonWaitObjectWait 1000, .PylonStreamGrabberRetrieveResult] ++ tcalls)

/-- A sequence of calls of `gst_pylonsrc_create`, each on the session the
previous one left, with the SDK answers of each call. -/
def pulls (s : Session) : List CreateReply → List CreateResult
  | [] => []
  | r :: rs =>
    let out := gst_pylonsrc_create s r
    out :: pulls out.session rs

/-- The buffers handed downstream by a sequence of calls, in order. -/
def delivered (s : Session) (rs : List CreateReply) : List GstBuffer :=
  (pulls s rs).filterMap (fun out => out.buf)

/-- SDK answers of a call of `gst_pylonsrc_create` in which the wait and the
retrieval succeed and the retrieved result, for pool buffer `context`, has
status `status`; every other SDK call is answered with success. -/
def grabReply (context : Nat) (status : EPylonGrabStatus) : CreateReply :=
  { waitRes := .ok, waitReady := true, retrieveRes := .ok, retrieveReady := true,
    grabResult := { Context := context, Status := status },
    statusAvailable := true, notReadyPolls := 0, pollRes := .ok,
    triggerRes := .ok, queueRes := .ok }

/-! ## Disconnecting and the frame of `gst_pylonsrc_start` -/

/-- Answers of the device to one call of `pylonc_reset_camera`. -/
structure ResetReply where
  resetAvailable : Bool
  resetRes : GenApiResult
  deriving DecidableEq, Repr

/-- The function `pylonc_reset_camera`: the calls made and the return value. -/
def pylonc_reset_camera (dev : ResetReply) : List Call × Bool :=
  if dev.resetAvailable = true then
    match dev.resetRes with
    | .ok => ([.PylonDeviceExecuteCommandFeature "DeviceReset"], true)
    | .failed => ([.PylonDeviceExecuteCommandFeature "DeviceReset"], false)
  else
    ([], false)

/-- The function `pylonc_disconnect_camera`, given the value of the global
`deviceConnected` at the call: the calls made and the value of the global
afterwards.  The device closed and destroyed is `pylonsrc->deviceHandle`,
named here by `pylonsrc->cameraId`. -/
def pylonc_disconnect_camera (pylonsrc : GstPylonsrc) (deviceConnected : Bool)
    (dev : ResetReply) : List Call × Bool :=
  if deviceConnected = true then
    let reset : List Call :=
      if pylonsrc.reset = "after" then (pylonc_reset_camera dev).1 else []
    (reset ++ [.PylonDeviceClose pylonsrc.cameraId, .PylonDestroyDevice pylonsrc.cameraId],
      false)
  else
    ([], deviceConnected)

/-- The function `gst_pylonsrc_stop`: its return value, the calls made and
the value of `deviceConnected` afterwards. -/
def gst_pylonsrc_stop (pylonsrc : GstPylonsrc) (deviceConnected : Bool) (dev : ResetReply) :
    Bool × List Call × Bool :=
  (true, pylonc_disconnect_camera pylonsrc deviceConnected dev)

/-- Answers of the SDK during one call of `gst_pylonsrc_start`, as far as the
global `deviceConnected` depends on them.  The blocks from "Get the camera's
resolution" to "Tell the camera to start recording" neither read nor assign
`deviceConnected` (the global occurs only in `gst_pylonsrc_get_caps`,
`pylonc_disconnect_camera` and `pylonc_connect_camera`); all that matters of
them here is whether one of them jumps to `error`, and `configuration` holds
that outcome: `some e` for a jump to `error`, `none` when control reaches
`return TRUE`. -/
structure StartReply where
  enumRes : GenApiResult
  numDevices : Nat
  listing : Nat → ListingReply
  createRes : GenApiResult
  openRes : GenApiResult
  userIdWritable : Bool
  userIdRes : GenApiResult
  resetAvailable : Bool
  resetBefore : ResetReply
  reEnumRes : GenApiResult
  reCreateRes : GenApiResult
  reOpenRes : GenApiResult
  configuration : Option StartError
  resetAfter : ResetReply

/-- What a call of `gst_pylonsrc_start` leaves behind: the return value, the
global `deviceConnected`, the element, the calls made up to and including the
disconnection, and the error that led to the `error:` label, if any. -/
structure StartResult where
  ret : Bool
  deviceConnected : Bool
  pylonsrc : GstPylonsrc
  calls : List Call
  error : Option StartError

/-- The code at the label `error:` of `gst_pylonsrc_start`:
`pylonc_disconnect_camera(pylonsrc); return FALSE;`. -/
def gst_pylonsrc_start_error (pylonsrc : GstPylonsrc) (deviceConnected : Bool)
    (dev : StartReply) (calls : List Call) (e : StartError) : StartResult :=
  { ret := false,
    deviceConnected := (pylonc_disconnect_camera pylonsrc deviceConnected dev.resetAfter).2,
    pylonsrc := pylonsrc,
    calls := calls ++ (pylonc_disconnect_camera pylonsrc deviceConnected dev.resetAfter).1,
    error := some e }

/-- The block `if(strcmp(pylonsrc->userid, "") != 0) {...}`. -/
def gst_pylonsrc_start_user_id (pylonsrc : GstPylonsrc) (dev : StartReply) :
    List Call × Option StartError :=
  if pylonsrc.userid ≠ "" then
    if dev.userIdWritable = true then
      match dev.userIdRes with
      | .ok => ([.PylonDeviceFeatureFromString "DeviceUserID" pylonsrc.userid], none)
      | .failed => ([.PylonDeviceFeatureFromString "DeviceUserID" pylonsrc.userid], some .pylonc)
    else ([], none)
  else ([], none)

/-- The block "Reset the camera if required", entered with `pylonsrc->reset`
already lowercased: the calls made, the value of `deviceConnected` afterwards
and `some e` for a jump to `error`. -/
def gst_pylonsrc_start_reset_before (pylonsrc : GstPylonsrc) (deviceConnected : Bool)
    (dev : StartReply) : List Call × Bool × Option StartError :=
  if pylonsrc.reset = "before" then
    if dev.resetAvailable = true then
      let reset := pylonc_reset_camera dev.resetBefore
      let disconnect := pylonc_disconnect_camera pylonsrc deviceConnected dev.resetAfter
      match dev.reEnumRes with
      | .failed =>
        (reset.1 ++ disconnect.1 ++ [.PylonEnumerateDevices], disconnect.2, some .pylonc)
      | .ok =>
        match pylonc_connect_camera pylonsrc.cameraId dev.reCreateRes dev.reOpenRes with
        | (calls, none) =>
          (reset.1 ++ disconnect.1 ++ [.PylonEnumerateDevices] ++ calls, disconnect.2,
            some (.element "No camera connected"))
        | (calls, some connected) =>
          (reset.1 ++ disconnect.1 ++ [.PylonEnumerateDevices] ++ calls, connected, none)
    else
      ([], deviceConnected, some (.element "Camera couldn't be reset properly."))
  else
    ([], deviceConnected, none)

/-- The function `gst_pylonsrc_start`, called with the global
`deviceConnected` holding `deviceConnected`. -/
def gst_pylonsrc_start (pylonsrc : GstPylonsrc) (deviceConnected : Bool) (dev : StartReply) :
    StartResult :=
  match gst_pylonsrc_start_select_device pylonsrc dev.enumRes dev.numDevices dev.listing with
  | (calls, .error e) => gst_pylonsrc_start_error pylonsrc deviceConnected dev calls e
  | (calls, .connect id) =>
    let selected : GstPylonsrc := { pylonsrc with cameraId := id }
    match pylonc_connect_camera id dev.createRes dev.openRes with
    | (calls2, none) =>
      gst_pylonsrc_start_error selected deviceConnected dev (calls ++ calls2)
        (.element "No camera connected")
    | (calls2, some connected) =>
      match gst_pylonsrc_start_user_id selected dev with
      | (calls3, some e) =>
        gst_pylonsrc_start_error selected connected dev (calls ++ calls2 ++ calls3) e
      | (calls3, none) =>
        let lowered : GstPylonsrc := { selected with reset := g_ascii_strdown selected.reset }
        match gst_pylonsrc_start_reset_before lowered connected dev with
        | (calls4, connected2, some e) =>
          gst_pylonsrc_start_error lowered connected2 dev
            (calls ++ calls2 ++ calls3 ++ [.pylonc_print_camera_info id] ++ calls4) e
        | (calls4, connected2, none) =>
          match dev.configuration with
          | some e =>
            gst_pylonsrc_start_error lowered connected2 dev
              (calls ++ calls2 ++ calls3 ++ [.pylonc_print_camera_info id] ++ calls4) e
          | none =>
            { ret := true, deviceConnected := connected2, pylonsrc := lowered,
              calls := calls ++ calls2 ++ calls3 ++ [.pylonc_print_camera_info id] ++ calls4,
              error := none }

/-! ## Resolution (`gst_pylonsrc_start`, "Get the camera's resolution" to "Set the final resolution") -/

/-- Answers of the device during the resolution blocks: whether `Width`,
`Height`, `WidthMax` and `HeightMax` are implemented, the result and value of
each read, and the result of the two writes. -/
structure ResolutionReply where
  implWidth : Bool
  implHeight : Bool
  getWidthRes : GenApiResult
  width : Int
  getHeightRes : GenApiResult
  height : Int
  implWidthMax : Bool
  implHeightMax : Bool
  getWidthMaxRes : GenApiResult
  widthMax : Int
  getHeightMaxRes : GenApiResult
  heightMax : Int
  setWidthRes : GenApiResult
  setHeightRes : GenApiResult
  deriving DecidableEq, Repr

/-- The block "Max Width and Height": reads `WidthMax` and `HeightMax` into
`pylonsrc->maxWidth` and `pylonsrc->maxHeight` when both are implemented. -/
def gst_pylonsrc_start_read_maxima (pylonsrc : GstPylonsrc) (dev : ResolutionReply) :
    List Call × Except StartError GstPylonsrc :=
  if dev.implWidthMax = true ∧ dev.implHeightMax = true then
    match dev.getWidthMaxRes with
    | .failed => ([.PylonDeviceGetIntegerFeature "WidthMax"], .error .pylonc)
    | .ok =>
      match dev.getHeightMaxRes with
      | .failed =>
        ([.PylonDeviceGetIntegerFeature "WidthMax", .PylonDeviceGetIntegerFeature "HeightMax"],
          .error .pylonc)
      | .ok =>
        ([.PylonDeviceGetIntegerFeature "WidthMax", .PylonDeviceGetIntegerFeature "HeightMax"],
          .ok { pylonsrc with maxWidth := dev.widthMax, maxHeight := dev.heightMax })
  else
    ([], .ok pylonsrc)

/-- The block "If custom resolution is set, check if it's even possible and
set it"; `width` and `height` are the locals read from the device. -/
def gst_pylonsrc_start_choose_resolution (pylonsrc : GstPylonsrc) (width height : Int) :
    Except StartError GstPylonsrc :=
  if pylonsrc.height ≠ 0 ∨ pylonsrc.width ≠ 0 then
    if pylonsrc.width > pylonsrc.maxWidth then
      .error (.element "Wrong width specified")
    else
      let withWidth : GstPylonsrc :=
        if pylonsrc.width = 0 then { pylonsrc with width := width } else pylonsrc
      if withWidth.height > withWidth.maxHeight then
        .error (.element "Wrong height specified")
      else if withWidth.height = 0 then
        .ok { withWidth with height := height }
      else
        .ok withWidth
  else
    .ok { pylonsrc with height := height, width := width }

/-- The block "Set the final resolution". -/
def gst_pylonsrc_start_write_resolution (pylonsrc : GstPylonsrc) (dev : ResolutionReply) :
    List Call × Except StartError GstPylonsrc :=
  match dev.setWidthRes with
  | .failed => ([.PylonDeviceSetIntegerFeature "Width" pylonsrc.width], .error .pylonc)
  | .ok =>
    match dev.setHeightRes with
    | .failed =>
      ([.PylonDeviceSetIntegerFeature "Width" pylonsrc.width,
        .PylonDeviceSetIntegerFeature "Height" pylonsrc.height], .error .pylonc)
    | .ok =>
      ([.PylonDeviceSetIntegerFeature "Width" pylonsrc.width,
        .PylonDeviceSetIntegerFeature "Height" pylonsrc.height], .ok pylonsrc)

/-- The resolution blocks of `gst_pylonsrc_start` in source order: check that
the camera reports `Width` and `Height`, read the two defaults, read the two
maxima, choose the resolution, write it. -/
def gst_pylonsrc_start_set_resolution (pylonsrc : GstPylonsrc) (dev : ResolutionReply) :
    List Call × Except StartError GstPylonsrc :=
  if dev.implWidth = false ∨ dev.implHeight = false then
    ([], .error (.element "Camera isn't reporting it's resolution. (Unsupported device?)"))
  else
    match dev.getWidthRes with
    | .failed => ([.PylonDeviceGetIntegerFeature "Width"], .error .pylonc)
    | .ok =>
      match dev.getHeightRes with
      | .failed =>
        ([.PylonDeviceGetIntegerFeature "Width", .PylonDeviceGetIntegerFeature "Height"],
          .error .pylonc)
      | .ok =>
        let reads : List Call :=
          [.PylonDeviceGetIntegerFeature "Width", .PylonDeviceGetIntegerFeature "Height"]
        match gst_pylonsrc_start_read_maxima pylonsrc dev with
        | (calls, .error e) => (reads ++ calls, .error e)
        | (calls, .ok withMaxima) =>
          match gst_pylonsrc_start_choose_resolution withMaxima dev.width dev.height with
          | .error e => (reads ++ calls, .error e)
          | .ok chosen =>
            match gst_pylonsrc_start_write_resolution chosen dev with
            | (calls2, r) => (reads ++ calls ++ calls2, r)

/-! ## Pixel format (`gst_pylonsrc_start`, "Set pixel format") -/

/-- The if-chain of the pixel-format block, entered with
`pylonsrc->imageFormat` already lowercased: the text printed into
`pixelFormat`, or the element error of the branch taken.  `available` is
`PylonDeviceFeatureIsAvailable` on the device. -/
def gst_pylonsrc_start_pixel_format_name (pylonsrc : GstPylonsrc) (available : String → Bool) :
    Except StartError String :=
  if pylonsrc.imageFormat.take 5 = "bayer" then
    if available ("EnumEntry_PixelFormat_" ++ gst_pylonsrc_start_bayer_pixel_format pylonsrc)
        = false then
      .error (.element ("Camera doesn't support Bayer" ++ pylonsrc.imageFormat.drop 5 ++ "."))
    else
      .ok (gst_pylonsrc_start_bayer_pixel_format pylonsrc)
  else if pylonsrc.imageFormat = "rgb8" then
    if available "EnumEntry_PixelFormat_RGB8" = true then .ok "RGB8"
    else .error (.element "Camera doesn't support RGB 8")
  else if pylonsrc.imageFormat = "bgr8" then
    if available "EnumEntry_PixelFormat_BGR8" = true then .ok "RGB8"
    else .error (.element "Camera doesn't support BGR 8")
  else if pylonsrc.imageFormat = "ycbcr422_8" then
    if available "EnumEntry_PixelFormat_YCbCr422_8" = true then .ok "YCbCr422_8"
    else .error (.element "Camera doesn't support YCbCr422 8")
  else if pylonsrc.imageFormat = "mono8" then
    if available "EnumEntry_PixelFormat_Mono8" = true then .ok "Mono8"
    else .error (.element "Camera doesn't support Mono 8")
  else
    .error (.element "Invalid parameters provided")

/-- The pixel-format block of `gst_pylonsrc_start`: lowercase the requested
format (`g_ascii_strdown`), choose the device format name, write it to the
device feature `PixelFormat`. -/
def gst_pylonsrc_start_set_pixel_format (pylonsrc : GstPylonsrc) (available : String → Bool)
    (setRes : GenApiResult) : List Call × Except StartError GstPylonsrc :=
  let lowered : GstPylonsrc := { pylonsrc with imageFormat := g_ascii_strdown pylonsrc.imageFormat }
  match gst_pylonsrc_start_pixel_format_name lowered available with
  | .error e => ([], .error e)
  | .ok pixelFormat =>
    match setRes with
    | .failed => ([.PylonDeviceFeatureFromString "PixelFormat" pixelFormat], .error .pylonc)
    | .ok => ([.PylonDeviceFeatureFromString "PixelFormat" pixelFormat], .ok lowered)

/-! ## Auto-gain limits (`gst_pylonsrc_start`, "Configure automatic exposure and gain settings") -/

/-- Answers of the device during the two auto-gain limit blocks. -/
structure GainLimitReply where
  availLower : Bool
  setLower : GenApiResult
  availUpper : Bool
  setUpper : GenApiResult
  deriving DecidableEq, Repr

/-- The block `if(pylonsrc->gainlowerlimit != 999.0) {...}`. -/
def gst_pylonsrc_start_gain_lower_limit (pylonsrc : GstPylonsrc) (dev : GainLimitReply) :
    List Call × Option StartError :=
  if pylonsrc.gainlowerlimit ≠ 999 then
    if dev.availLower = true then
      match dev.setLower with
      | .ok =>
        ([.PylonDeviceSetFloatFeature "AutoGainLowerLimit" pylonsrc.gainlowerlimit], none)
      | .failed =>
        ([.PylonDeviceSetFloatFeature "AutoGainLowerLimit" pylonsrc.gainlowerlimit],
          some .pylonc)
    else
      ([], none)
  else
    ([], none)

/-- The block `if(pylonsrc->gainupperlimit != 999.0) {...}`. -/
def gst_pylonsrc_start_gain_upper_limit (pylonsrc : GstPylonsrc) (dev : GainLimitReply) :
    List Call × Option StartError :=
  if pylonsrc.gainupperlimit ≠ 999 then
    if pylonsrc.gainlowerlimit ≥ pylonsrc.gainupperlimit then
      ([], some (.element "Invalid parameters provided"))
    else if dev.availUpper = true then
      match dev.setUpper with
      | .ok =>
        ([.PylonDeviceSetFloatFeature "AutoGainUpperLimit" pylonsrc.gainupperlimit], none)
      | .failed =>
        ([.PylonDeviceSetFloatFeature "AutoGainUpperLimit" pylonsrc.gainupperlimit],
          some .pylonc)
    else
      ([], none)
  else
    ([], none)

/-- The two auto-gain limit blocks in source order: lower limit first, then
upper limit. -/
def gst_pylonsrc_start_auto_gain_limits (pylonsrc : GstPylonsrc) (dev : GainLimitReply) :
    List Call × Option StartError :=
  match gst_pylonsrc_start_gain_lower_limit pylonsrc dev with
  | (ls, some e) => (ls, some e)
  | (ls, none) =>
    match gst_pylonsrc_start_gain_upper_limit pylonsrc dev with
    | (us, r) => (ls ++ us, r)

/-! ## Frame-rate filter (`src/plugins/gstfpsfilter.c`) -/

/-- The four counters of `GstFpsFilter`, with the values `gst_fps_filter_init`
gives them.  Their C types are declared in `gstfpsfilter.h`; they are held as
integers.  In every run considered below the counters stay non-negative and
far below 2^63, where signed and unsigned 64-bit arithmetic agree with the
arithmetic of integers. -/
structure GstFpsFilter where
  frames : Int := 0
  lastframetime : Int := 0
  elapsedtime : Int := 0
  reporttime : Int := 1000
  deriving DecidableEq, Repr

/-- The counters as `gst_fps_filter_init` leaves them. -/
def gst_fps_filter_init : GstFpsFilter := {}

/-- The two locals `frames` and `elapsedtime` of `gst_fps_filter_chain` at the
point where the FPS message is logged. -/
structure FpsReport where
  frames : Int
  elapsedtime : Int
  deriving DecidableEq, Repr

/-- The first value of the FPS message, `frames/((float)elapsedtime/1000)`, in
exact arithmetic (the source evaluates it in single precision). -/
def FpsReport.fps (report : FpsReport) : ℚ :=
  (report.frames : ℚ) / ((report.elapsedtime : ℚ) / 1000)

/-- The counter part of `gst_fps_filter_chain`.  `playing` is
`GST_STATE(filter) == GST_STATE_PLAYING` and `time` the clock time in
milliseconds, `GST_TIME_AS_MSECONDS` of an unsigned `GstClockTime`.  The
result is the filter afterwards and the report logged, if any; `none` stands
for the one operation that has no result, the integer remainder
`elapsedtime % reporttime` with `reporttime` equal to 0. -/
def gst_fps_filter_chain (filter : GstFpsFilter) (playing : Bool) (time : Nat) :
    Option (GstFpsFilter × Option FpsReport) :=
  if playing = true then
    let counted : GstFpsFilter := { filter with frames := filter.frames + 1 }
    let added : GstFpsFilter :=
      { counted with elapsedtime := counted.elapsedtime + ((time : Int) - counted.lastframetime) }
    if added.elapsedtime ≥ added.reporttime then
      if added.elapsedtime ≠ added.reporttime then
        if added.reporttime = 0 then
          none
        else
          let frames := added.frames - 1
          let elapsedtime := added.elapsedtime - Int.tmod added.elapsedtime added.reporttime
          some ({ added with frames := added.frames - frames,
                             elapsedtime := added.elapsedtime - elapsedtime,
                             lastframetime := time },
                some { frames := frames, elapsedtime := elapsedtime })
      else
        some ({ added with frames := added.frames - added.frames,
                           elapsedtime := added.elapsedtime - added.elapsedtime,
                           lastframetime := time },
              some { frames := added.frames, elapsedtime := added.elapsedtime })
    else
      some ({ added with lastframetime := time }, none)
  else
    some (filter, none)

/-- A sequence of calls of `gst_fps_filter_chain`, each with its state flag
and clock time: the filter and the report after each call, or `none` when one
of the calls has no result. -/
def gst_fps_filter_run (filter : GstFpsFilter) :
    List (Bool × Nat) → Option (List (GstFpsFilter × Option FpsReport))
  | [] => some []
  | (playing, time) :: rest =>
    match gst_fps_filter_chain filter playing time with
    | none => none
    | some out =>
      match gst_fps_filter_run out.1 rest with
      | none => none
      | some outs => some (out :: outs)

/-- Frames that arrive while the element is playing, `n` of them, the first
`d` milliseconds after clock time `t0` and each next one `d` milliseconds
after the one before. -/
def steadyFrames (t0 d : Nat) : Nat → List (Bool × Nat)
  | 0 => []
  | n + 1 => (true, t0 + d) :: steadyFrames (t0 + d) d n

/-- SDK answers of a call of `gst_pylonsrc_start` with one camera present, in
which every call that is made succeeds, and the configuration blocks end as
`configuration` says. -/
def acceptingStart (configuration : Option StartError) : StartReply :=
  { enumRes := .ok, numDevices := 1, listing := fun _ => ⟨.ok, .ok⟩,
    createRes := .ok, openRes := .ok, userIdWritable := true, userIdRes := .ok,
    resetAvailable := true, resetBefore := ⟨true, .ok⟩,
    reEnumRes := .ok, reCreateRes := .ok, reOpenRes := .ok,
    configuration := configuration, resetAfter := ⟨true, .ok⟩ }

/-! ## Orientation (`gst_pylonsrc_start`, "Flip the image") -/

/-- Answers of the device during the flip block. -/
structure FlipReply where
  implReverseX : Bool
  implReverseY : Bool
  setReverseX : GenApiResult
  setReverseY : GenApiResult
  deriving DecidableEq, Repr

/-- The flip block of `gst_pylonsrc_start`: the writes issued and the element
afterwards, or the error.  The test of `ReverseY` is the `else` branch of the
test of `ReverseX`, and the two writes are the `else` branch of that. -/
def gst_pylonsrc_start_flip (pylonsrc : GstPylonsrc) (dev : FlipReply) :
    List Call × Except StartError GstPylonsrc :=
  if dev.implReverseX = false then
    ([], .ok { pylonsrc with flipx := false })
  else
    if dev.implReverseY = false then
      ([], .ok { pylonsrc with flipy := false })
    else
      match dev.setReverseX with
      | .failed => ([.PylonDeviceSetBooleanFeature "ReverseX" pylonsrc.flipx], .error .pylonc)
      | .ok =>
        match dev.setReverseY with
        | .failed =>
          ([.PylonDeviceSetBooleanFeature "ReverseX" pylonsrc.flipx,
            .PylonDeviceSetBooleanFeature "ReverseY" pylonsrc.flipy], .error .pylonc)
        | .ok =>
          ([.PylonDeviceSetBooleanFeature "ReverseX" pylonsrc.flipx,
            .PylonDeviceSetBooleanFeature "ReverseY" pylonsrc.flipy], .ok pylonsrc)

/-! ## Frame-rate cap (`gst_pylonsrc_start`, "Set framerate") -/

/-- Answers of the device during the frame-rate block. -/
structure FramerateReply where
  availEnable : Bool
  setEnable : GenApiResult
  availRate : Bool
  setRate : GenApiResult
  deriving DecidableEq, Repr

/-- The frame-rate block of `gst_pylonsrc_start`. -/
def gst_pylonsrc_start_framerate (pylonsrc : GstPylonsrc) (dev : FramerateReply) :
    List Call × Option StartError :=
  if pylonsrc.setFPS = true ∨ pylonsrc.fps ≠ 0 then
    if dev.availEnable = true then
      match dev.setEnable with
      | .failed =>
        ([.PylonDeviceSetBooleanFeature "AcquisitionFrameRateEnable" true], some .pylonc)
      | .ok =>
        if pylonsrc.fps ≠ 0 ∧ dev.availRate = true then
          match dev.setRate with
          | .failed =>
            ([.PylonDeviceSetBooleanFeature "AcquisitionFrameRateEnable" true,
              .PylonDeviceSetFloatFeature "AcquisitionFrameRate" pylonsrc.fps], some .pylonc)
          | .ok =>
            ([.PylonDeviceSetBooleanFeature "AcquisitionFrameRateEnable" true,
              .PylonDeviceSetFloatFeature "AcquisitionFrameRate" pylonsrc.fps], none)
        else
          ([.PylonDeviceSetBooleanFeature "AcquisitionFrameRateEnable" true], none)
    else
      ([], none)
  else
    if dev.availEnable = true then
      match dev.setEnable with
      | .failed =>
        ([.PylonDeviceSetBooleanFeature "AcquisitionFrameRateEnable" false], some .pylonc)
      | .ok => ([.PylonDeviceSetBooleanFeature "AcquisitionFrameRateEnable" false], none)
    else
      ([], none)

/-! ## Colour transformation (`gst_pylonsrc_start`, "Configure colour transformation") -/

/-- Runs `next` after `first` unless `first` jumped to `error`. -/
def thenBlock (first next : List Call × Option StartError) : List Call × Option StartError :=
  match first with
  | (calls, some e) => (calls, some e)
  | (calls, none) => (calls ++ next.1, next.2)

/-- One write with `PylonDeviceFeatureFromString` followed by
`PYLONC_CHECK_ERROR`; `accept` is the answer of the device to each write. -/
def writeString (accept : Call → GenApiResult) (feature value : String) :
    List Call × Option StartError :=
  match accept (.PylonDeviceFeatureFromString feature value) with
  | .ok => ([.PylonDeviceFeatureFromString feature value], none)
  | .failed => ([.PylonDeviceFeatureFromString feature value], some .pylonc)

/-- One write with `PylonDeviceSetFloatFeature` followed by
`PYLONC_CHECK_ERROR`. -/
def writeFloat (accept : Call → GenApiResult) (feature : String) (value : ℚ) :
    List Call × Option StartError :=
  match accept (.PylonDeviceSetFloatFeature feature value) with
  | .ok => ([.PylonDeviceSetFloatFeature feature value], none)
  | .failed => ([.PylonDeviceSetFloatFeature feature value], some .pylonc)

/-- The if-chain on `pylonsrc->transformationselector` (already lowercased).
The third branch repeats the test for "rgbyuv" of the second. -/
def gst_pylonsrc_start_transformation_selector (pylonsrc : GstPylonsrc)
    (accept : Call → GenApiResult) : List Call × Option StartError :=
  if pylonsrc.transformationselector ≠ "default" then
    if pylonsrc.transformationselector = "rgbrgb" then
      writeString accept "ColorTransformationSelector" "RGBtoRGB"
    else if pylonsrc.transformationselector = "rgbyuv" then
      writeString accept "ColorTransformationSelector" "RGBtoYUV"
    else if pylonsrc.transformationselector = "rgbyuv" then
      writeString accept "ColorTransformationSelector" "YUVtoRGB"
    else
      ([], some (.element "Invalid parameters provided"))
  else
    ([], none)

/-- One of the nine blocks `if(pylonsrc->transformationNM != 999.0) {...}`:
a string write of `gain` to `selector` and a float write of `value` to
`valueFeature`, with the feature names of that block. -/
def gst_pylonsrc_start_transformation_cell (accept : Call → GenApiResult)
    (selector gain valueFeature : String) (value : ℚ) : List Call × Option StartError :=
  if value ≠ 999 then
    thenBlock (writeString accept selector gain) (writeFloat accept valueFeature value)
  else
    ([], none)

/-- The nine cell blocks in source order, each with the feature names its
block uses. -/
def gst_pylonsrc_start_transformation_cells (pylonsrc : GstPylonsrc)
    (accept : Call → GenApiResult) : List Call × Option StartError :=
  thenBlock (gst_pylonsrc_start_transformation_cell accept
    "ColorTransformationSelector" "Gain00" "ColorTransformationValueSelector"
    pylonsrc.transformation00) <|
  thenBlock (gst_pylonsrc_start_transformation_cell accept
    "ColorTransformationValueSelector" "Gain01" "ColorTransformationValue"
    pylonsrc.transformation01) <|
  thenBlock (gst_pylonsrc_start_transformation_cell accept
    "ColorTransformationValueSelector" "Gain02" "ColorTransformationValue"
    pylonsrc.transformation02) <|
  thenBlock (gst_pylonsrc_start_transformation_cell accept
    "ColorTransformationValueSelector" "Gain10" "ColorTransformationValue"
    pylonsrc.transformation10) <|
  thenBlock (gst_pylonsrc_start_transformation_cell accept
    "ColorTransformationValueSelector" "Gain11" "ColorTransformationValue"
    pylonsrc.transformation11) <|
  thenBlock (gst_pylonsrc_start_transformation_cell accept
    "ColorTransformationValueSelector" "Gain12" "ColorTransformationValue"
    pylonsrc.transformation12) <|
  thenBlock (gst_pylonsrc_start_transformation_cell accept
    "ColorTransformationValueSelector" "Gain20" "ColorTransformationValue"
    pylonsrc.transformation20) <|
  thenBlock (gst_pylonsrc_start_transformation_cell accept
    "ColorTransformationValueSelector" "Gain21" "ColorTransformationValue"
    pylonsrc.transformation21) <|
  gst_pylonsrc_start_transformation_cell accept
    "ColorTransformationValueSelector" "Gain22" "ColorTransformationValue"
    pylonsrc.transformation22

/-- The colour-transformation block of `gst_pylonsrc_start`: lowercase the
selector, and, when the device offers `ColorTransformationSelector`, run the
selector if-chain and the nine cell blocks. -/
def gst_pylonsrc_start_transformation (pylonsrc : GstPylonsrc) (available : Bool)
    (accept : Call → GenApiResult) : List Call × Option StartError :=
  let lowered : GstPylonsrc :=
    { pylonsrc with transformationselector := g_ascii_strdown pylonsrc.transformationselector }
  if available = true then
    thenBlock (gst_pylonsrc_start_transformation_selector lowered accept)
      (gst_pylonsrc_start_transformation_cells lowered accept)
  else
    ([], none)

/-! ## Demosaicing (`gst_pylonsrc_start`, "Basler PGI") -/

/-- Answers of the device during the demosaicing block.  The results of the
two float writes are not checked by the source and are not part of it. -/
structure DemosaicingReply where
  implDemosaicingMode : Bool
  setMode : GenApiResult
  availNoiseReduction : Bool
  availSharpnessEnhancement : Bool
  deriving DecidableEq, Repr

/-- The demosaicing block of `gst_pylonsrc_start`, entered with
`pylonsrc->imageFormat` already lowercased.  The branch taken when none of the
three settings was requested makes no SDK call; it only logs "Usage of PGI is
not permitted with bayer output. Skipping.". -/
def gst_pylonsrc_start_basler_pgi (pylonsrc : GstPylonsrc) (dev : DemosaicingReply) :
    List Call × Option StartError :=
  if dev.implDemosaicingMode = true then
    if pylonsrc.demosaicing = true ∨ pylonsrc.sharpnessenhancement ≠ 999
        ∨ pylonsrc.noisereduction ≠ 999 then
      if pylonsrc.imageFormat.take 5 ≠ "bayer" then
        match dev.setMode with
        | .failed =>
          ([.PylonDeviceFeatureFromString "DemosaicingMode" "BaslerPGI"], some .pylonc)
        | .ok =>
          let noise : List Call :=
            if pylonsrc.noisereduction ≠ 999 ∧ dev.availNoiseReduction = true then
              [.PylonDeviceSetFloatFeature "NoiseReduction" pylonsrc.noisereduction]
            else []
          let sharpness : List Call :=
            if pylonsrc.sharpnessenhancement ≠ 999 ∧ dev.availSharpnessEnhancement = true then
              [.PylonDeviceSetFloatFeature "SharpnessEnhancement" pylonsrc.sharpnessenhancement]
            else []
          ([.PylonDeviceFeatureFromString "DemosaicingMode" "BaslerPGI"] ++ noise ++ sharpness,
            none)
      else
        match dev.setMode with
        | .failed => ([.PylonDeviceFeatureFromString "DemosaicingMode" "Simple"], some .pylonc)
        | .ok => ([.PylonDeviceFeatureFromString "DemosaicingMode" "Simple"], none)
    else
      ([], none)
  else
    ([], none)

/-! ## Caps negotiation (`gst_pylonsrc_get_caps`, `gst_pylonsrc_set_caps`) -/

/-- The fields of a simple `GstCaps` that the element writes or reads: the
name of the structure (the media type), its `format` string, and the `width`
and `height`. -/
structure GstCaps where
  mediaType : String
  format : String
  width : Int
  height : Int
  deriving DecidableEq, Repr

/-- The function `gst_pylonsrc_get_caps`, given the global `deviceConnected`;
`none` stands for the pad template caps returned when no camera is
connected. -/
def gst_pylonsrc_get_caps (pylonsrc : GstPylonsrc) (deviceConnected : Bool) : Option GstCaps :=
  if deviceConnected = false then
    none
  else
    if pylonsrc.imageFormat.take 5 = "bayer" then
      let format : String :=
        if pylonsrc.flipx = true ∧ pylonsrc.flipy = false then "gbrg"
        else if pylonsrc.flipx = false ∧ pylonsrc.flipy = true then "grbg"
        else if pylonsrc.flipx = true ∧ pylonsrc.flipy = true then "rggb"
        else "bggr"
      some { mediaType := "video/x-bayer", format := format,
             width := pylonsrc.width, height := pylonsrc.height }
    else
      let format : String :=
        if pylonsrc.imageFormat = "rgb8" then "RGB"
        else if pylonsrc.imageFormat = "bgr8" then "BGR"
        else if pylonsrc.imageFormat = "ycbcr422_8" then "YUY2"
        else if pylonsrc.imageFormat = "mono8" then "GRAY8"
        else ""
      some { mediaType := "video/x-raw", format := format,
             width := pylonsrc.width, height := pylonsrc.height }

/-- The function `gst_pylonsrc_set_caps` on caps that carry a `format`
string: `true` for `return TRUE`, `false` for the `unsupported_caps` exit. -/
def gst_pylonsrc_set_caps (pylonsrc : GstPylonsrc) (caps : GstCaps) : Bool :=
  if pylonsrc.imageFormat.take 5 = "bayer" then
    if caps.mediaType ≠ "video/x-bayer" then false else true
  else
    if caps.mediaType ≠ "video/x-raw"
        ∨ (caps.format ≠ "YUY2" ∧ caps.format ≠ "RGB" ∧ caps.format ≠ "BGR"
            ∧ caps.format ≠ "GRAY8") then false
    else true

/-- The caps format string that tiles a two-letter Bayer filter pattern into
its 2x2 cell, as the negotiation of Bayer caps names it: BG is "bggr", GB is
"gbrg", GR is "grbg", RG is "rggb". -/
def bayerTiling (pattern : String) : String :=
  if pattern = "BG" then "bggr"
  else if pattern = "GB" then "gbrg"
  else if pattern = "GR" then "grbg"
  else if pattern = "RG" then "rggb"
  else ""

/-! ## Frame-rate filter: the property `reporttime` -/

/-- The declared range of the property `reporttime` in
`gst_fps_filter_class_init`: `g_param_spec_uint64` from 0 to `G_MAXUINT64`. -/
def gst_fps_filter_class_init : ParamRange := ⟨0, 18446744073709551615⟩

/-- The case `PROP_REPORTTIME` of `gst_fps_filter_set_property`. -/
def gst_fps_filter_set_property (filter : GstFpsFilter) (value : Nat) : GstFpsFilter :=
  { filter with reporttime := value }

/-! ## Theorems: device selection -/

/-- C1: when `PylonEnumerateDevices` reports 0 devices, whatever camera id is
requested, `gst_pylonsrc_start` jumps to `error` with the element error
"No camera connected"; the only SDK call made is the enumeration, so
`pylonc_connect_camera` is never reached. -/
theorem start_fails_without_devices (pylonsrc : GstPylonsrc) (reply : Nat → ListingReply)
    (createRes openRes : GenApiResult) :
    gst_pylonsrc_start_select_device pylonsrc .ok 0 reply
        = ([.PylonEnumerateDevices], .error (.element "No camera connected"))
      ∧ gst_pylonsrc_start_connect pylonsrc .ok 0 reply createRes openRes
        = ([.PylonEnumerateDevices], .error (.element "No camera connected")) := by
  constructor <;> simp [gst_pylonsrc_start_connect, gst_pylonsrc_start_select_device]

/-- C2: when exactly one device is enumerated, device selection does not fail
and hands index 0 to `pylonc_connect_camera`, whatever camera id is requested;
the device created is device 0 and after a successful connection
`pylonsrc->cameraId` is 0. -/
theorem single_device_selects_index_zero (pylonsrc : GstPylonsrc) (reply : Nat → ListingReply) :
    gst_pylonsrc_start_select_device pylonsrc .ok 1 reply
        = ([.PylonEnumerateDevices], .connect 0)
      ∧ gst_pylonsrc_start_connect pylonsrc .ok 1 reply .ok .ok
        = ([.PylonEnumerateDevices, .PylonCreateDeviceByIndex 0, .PylonDeviceOpen 0],
           .ok { pylonsrc with cameraId := 0 }) := by
  constructor <;>
    simp [gst_pylonsrc_start_connect, gst_pylonsrc_start_select_device, pylonc_connect_camera]

/-- The listing loop runs to its end exactly when every listed device that
could be created could also be opened. -/
theorem listCameras_completes_iff (reply : Nat → ListingReply) (k i : Nat) :
    (listCameras reply i k).2 = true
      ↔ ∀ j, i ≤ j → j < i + k → (reply j).create = .ok → (reply j).opened = .ok := by
  induction k generalizing i with
  | zero =>
    simp only [listCameras, true_iff]
    intro j h1 h2
    omega
  | succ k ih =>
    have step : ∀ P : Nat → Prop,
        (∀ j, i ≤ j → j < i + (k + 1) → P j) ↔ (P i ∧ ∀ j, i + 1 ≤ j → j < i + 1 + k → P j) := by
      intro P
      constructor
      · intro h
        exact ⟨h i (le_refl i) (by omega), fun j h1 h2 => h j (by omega) (by omega)⟩
      · rintro ⟨h0, h⟩ j h1 h2
        rcases Nat.eq_or_lt_of_le h1 with e | l
        · subst e
          exact h0
        · exact h j l (by omega)
    rw [step]
    unfold listCameras
    cases hc : (reply i).create <;> cases ho : (reply i).opened <;> simp [ih]

/-- With more than one device and no camera requested, `gst_pylonsrc_start`
always jumps to `error` and never reaches `pylonc_connect_camera`; the error
is the element error "No camera selected" when the listing loop runs to its
end, and the `PYLONC_CHECK_ERROR` of a failing `PylonDeviceOpen` when it does
not. -/
theorem gst_pylonsrc_start_select_device_listing (pylonsrc : GstPylonsrc) (numDevices : Nat)
    (reply : Nat → ListingReply) (hn : numDevices > 1) (hid : pylonsrc.cameraId = 9999) :
    (∃ e, (gst_pylonsrc_start_select_device pylonsrc .ok numDevices reply).2 = .error e)
      ∧ ((gst_pylonsrc_start_select_device pylonsrc .ok numDevices reply).2
            = .error (.element "No camera selected")
          ↔ ∀ j, j < numDevices → (reply j).create = .ok → (reply j).opened = .ok)
      ∧ ((gst_pylonsrc_start_select_device pylonsrc .ok numDevices reply).2 = .error .pylonc
          ↔ ∃ j, j < numDevices ∧ (reply j).create = .ok ∧ (reply j).opened = .failed) := by
  have h0 : numDevices ≠ 0 := by omega
  have h1 : numDevices ≠ 1 := by omega
  have key := listCameras_completes_iff reply numDevices 0
  simp only [Nat.zero_le, forall_const, Nat.zero_add] at key
  have hsel : (gst_pylonsrc_start_select_device pylonsrc .ok numDevices reply).2
      = if (listCameras reply 0 numDevices).2 = true
        then .error (.element "No camera selected") else .error .pylonc := by
    simp only [gst_pylonsrc_start_select_device, h0, h1, hn, hid, if_false, and_self, if_true]
    split <;> rfl
  rw [hsel]
  by_cases hl : (listCameras reply 0 numDevices).2 = true
  · have hall := key.mp hl
    rw [if_pos hl]
    refine ⟨⟨_, rfl⟩, ⟨fun _ => hall, fun _ => rfl⟩, ⟨fun h => by simp at h, ?_⟩⟩
    rintro ⟨j, hj, hc, ho⟩
    have := hall j hj hc
    rw [ho] at this
    exact absurd this (by decide)
  · have hnot : ¬ ∀ j, j < numDevices → (reply j).create = .ok → (reply j).opened = .ok :=
      fun h => hl (key.mpr h)
    rw [if_neg hl]
    refine ⟨⟨_, rfl⟩, ⟨fun h => by simp at h, fun h => absurd h hnot⟩, ⟨fun _ => ?_, fun _ => rfl⟩⟩
    by_contra hex
    apply hnot
    intro j hj hc
    cases ho : (reply j).opened with
    | ok => rfl
    | failed => exact absurd ⟨j, hj, hc, ho⟩ hex

/-- C3, the code at the failing input: with two devices and no camera
requested, a device that can be created but not opened ends the listing at
once through `PYLONC_CHECK_ERROR` after `PylonDeviceOpen`: the device is
neither closed nor destroyed, a later device is not listed, and the element
error "No camera selected" is not posted (first device failing; second device
failing).  A device that cannot be created takes the sibling branch, which
lets the loop go on, and the start ends with "No camera selected". -/
theorem multiple_devices_listing_open_failure :
    gst_pylonsrc_start_select_device gst_pylonsrc_init .ok 2 (fun _ => ⟨.ok, .failed⟩)
        = ([.PylonEnumerateDevices, .PylonCreateDeviceByIndex 0, .PylonDeviceOpen 0],
           .error .pylonc)
      ∧ (gst_pylonsrc_start_select_device gst_pylonsrc_init .ok 2 (fun _ => ⟨.ok, .failed⟩)).2
        ≠ .error (.element "No camera selected")
      ∧ gst_pylonsrc_start_select_device gst_pylonsrc_init .ok 2
            (fun i => if i = 1 then ⟨.ok, .failed⟩ else ⟨.ok, .ok⟩)
        = ([.PylonEnumerateDevices, .PylonCreateDeviceByIndex 0, .PylonDeviceOpen 0,
            .pylonc_print_camera_info 0, .PylonDeviceClose 0, .PylonDestroyDevice 0,
            .PylonCreateDeviceByIndex 1, .PylonDeviceOpen 1],
           .error .pylonc)
      ∧ gst_pylonsrc_start_select_device gst_pylonsrc_init .ok 2
            (fun i => if i = 1 then ⟨.failed, .failed⟩ else ⟨.ok, .ok⟩)
        = ([.PylonEnumerateDevices, .PylonCreateDeviceByIndex 0, .PylonDeviceOpen 0,
            .pylonc_print_camera_info 0, .PylonDeviceClose 0, .PylonDestroyDevice 0,
            .PylonCreateDeviceByIndex 1, .PylonDeviceCloseUninitialised,
            .PylonDestroyDeviceUninitialised],
           .error (.element "No camera selected")) := by
  refine ⟨?_, ?_, ?_, ?_⟩ <;>
    simp [gst_pylonsrc_start_select_device, gst_pylonsrc_init, listCameras]

/-- C4, the code at the failing input: with two devices (valid indices 0 and
1) and camera id 2 requested, the range check `cameraId > numDevices` lets the
request through: control reaches `pylonc_connect_camera` with index 2, and
`PylonCreateDeviceByIndex(2)` is called before the start fails. -/
theorem camera_id_equal_to_count_reaches_connect :
    gst_pylonsrc_start_select_device { cameraId := 2 } .ok 2 (fun _ => ⟨.ok, .ok⟩)
        = ([.PylonEnumerateDevices], .connect 2)
      ∧ gst_pylonsrc_start_connect { cameraId := 2 } .ok 2 (fun _ => ⟨.ok, .ok⟩) .failed .failed
        = ([.PylonEnumerateDevices, .PylonCreateDeviceByIndex 2],
           .error (.element "No camera connected")) := by
  constructor <;>
    simp [gst_pylonsrc_start_connect, gst_pylonsrc_start_select_device, pylonc_connect_camera]

/-! ## Theorems: Bayer filter pattern -/

/-- C5: the Bayer filter pattern is a total function of (flipX, flipY) with
the four values (false,false) -> "BG", (true,false) -> "GB", (false,true) ->
"GR", (true,true) -> "RG", which are pairwise distinct; it is the pattern
that the device pixel format name is built from, as in "BayerBG8" for bayer8
without flips and "BayerRG10" for bayer10 with both flips. -/
theorem bayer_filter_four_patterns :
    gst_pylonsrc_start_bayer_filter false false = "BG"
      ∧ gst_pylonsrc_start_bayer_filter true false = "GB"
      ∧ gst_pylonsrc_start_bayer_filter false true = "GR"
      ∧ gst_pylonsrc_start_bayer_filter true true = "RG"
      ∧ (∀ a b c d : Bool, gst_pylonsrc_start_bayer_filter a b
            = gst_pylonsrc_start_bayer_filter c d → a = c ∧ b = d)
      ∧ gst_pylonsrc_start_bayer_pixel_format { imageFormat := "bayer8" } = "BayerBG8"
      ∧ gst_pylonsrc_start_bayer_pixel_format { imageFormat := "bayer8", flipx := true }
          = "BayerGB8"
      ∧ gst_pylonsrc_start_bayer_pixel_format { imageFormat := "bayer10p", flipy := true }
          = "BayerGR10p"
      ∧ gst_pylonsrc_start_bayer_pixel_format
            { imageFormat := "bayer10", flipx := true, flipy := true } = "BayerRG10" := by
  refine ⟨by decide, by decide, by decide, by decide, by decide, by decide, by decide,
    by decide, by decide⟩

/-! ## Theorems: offsets -/

/-- C7 (as the code has it): when both auto-exposure limits are requested and
lowerLimit >= upperLimit, the start always fails and
AutoExposureTimeLowerLimit is never written.  The upper limit is examined
first and without validation: AutoExposureTimeUpperLimit has already been
written at the point of failure exactly when the device offers that feature,
and the failure is the invalid-parameters error unless the device rejected
that write. -/
theorem exposure_limits_checked_after_upper_write (pylonsrc : GstPylonsrc)
    (dev : ExposureLimitReply)
    (hlower : pylonsrc.autoexposurelowerlimit ≠ 9999999)
    (hupper : pylonsrc.autoexposureupperlimit ≠ 9999999)
    (hge : pylonsrc.autoexposurelowerlimit ≥ pylonsrc.autoexposureupperlimit) :
    (∃ e, (gst_pylonsrc_start_auto_exposure_limits pylonsrc dev).2 = some e)
      ∧ (∀ v, Call.PylonDeviceSetFloatFeature "AutoExposureTimeLowerLimit" v
            ∉ (gst_pylonsrc_start_auto_exposure_limits pylonsrc dev).1)
      ∧ (Call.PylonDeviceSetFloatFeature "AutoExposureTimeUpperLimit"
              pylonsrc.autoexposureupperlimit
            ∈ (gst_pylonsrc_start_auto_exposure_limits pylonsrc dev).1
          ↔ dev.availUpper = true)
      ∧ ((gst_pylonsrc_start_auto_exposure_limits pylonsrc dev).2
            = some (.element "Invalid parameters provided")
          ↔ ¬ (dev.availUpper = true ∧ dev.setUpper = .failed)) := by
  cases ha : dev.availUpper <;> cases hs : dev.setUpper <;>
    simp [gst_pylonsrc_start_auto_exposure_limits, gst_pylonsrc_start_exposure_upper_limit,
      gst_pylonsrc_start_exposure_lower_limit, hlower, hupper, hge, ha, hs]

/-- C7, an instance: lowerLimit 500, upperLimit 200, on a device that offers
both limits and accepts every write. -/
theorem exposure_limits_checked_after_upper_write_witness :
    ((500 : ℚ) ≠ 9999999 ∧ (200 : ℚ) ≠ 9999999 ∧ (500 : ℚ) ≥ 200)
      ∧ (∃ e, (gst_pylonsrc_start_auto_exposure_limits
            { autoexposurelowerlimit := 500, autoexposureupperlimit := 200 }
            ⟨true, .ok, true, .ok⟩).2 = some e) :=
  ⟨⟨by norm_num, by norm_num, by norm_num⟩,
    (exposure_limits_checked_after_upper_write
      { autoexposurelowerlimit := 500, autoexposureupperlimit := 200 }
      ⟨true, .ok, true, .ok⟩ (by norm_num) (by norm_num) (by norm_num)).1⟩

/-- C7, the claim as written fails: with lowerLimit 500 and upperLimit 200 on
a device that offers AutoExposureTimeUpperLimit, the start fails with the
invalid-parameters error after AutoExposureTimeUpperLimit has been written
with 200. -/
theorem exposure_upper_limit_written_before_validation :
    gst_pylonsrc_start_auto_exposure_limits
        { autoexposurelowerlimit := 500, autoexposureupperlimit := 200 }
        ⟨true, .ok, true, .ok⟩
      = ([.PylonDeviceSetFloatFeature "AutoExposureTimeUpperLimit" 200],
         some (.element "Invalid parameters provided")) := by
  norm_num [gst_pylonsrc_start_auto_exposure_limits, gst_pylonsrc_start_exposure_upper_limit,
    gst_pylonsrc_start_exposure_lower_limit]

/-! ## Theorems: buffer pool and grab loop -/

/-- C8, the code at the failing input: the buffer loops of a successful start
leave all 10 buffers queued; a first pull whose retrieved result (pool buffer
0) has status Failed returns `GST_FLOW_ERROR` through the `else` branch,
which jumps to `error` without `PylonStreamGrabberQueueBuffer`, so 9 buffers
are queued afterwards.  The same pull with status Grabbed re-queues the
buffer and leaves 10. -/
theorem failed_grab_is_not_requeued :
    (gst_pylonsrc_start_queue_buffers (fun _ => .ok) (fun _ => .ok)).2
        = .ok [0, 1, 2, 3, 4, 5, 6, 7, 8, 9]
      ∧ (gst_pylonsrc_create ⟨gst_pylonsrc_init, [0, 1, 2, 3, 4, 5, 6, 7, 8, 9]⟩
            (grabReply 0 .Failed)).flow = .GST_FLOW_ERROR
      ∧ (gst_pylonsrc_create ⟨gst_pylonsrc_init, [0, 1, 2, 3, 4, 5, 6, 7, 8, 9]⟩
            (grabReply 0 .Failed)).calls
          = [.PylonWaitObjectWait 1000, .PylonStreamGrabberRetrieveResult]
      ∧ (gst_pylonsrc_create ⟨gst_pylonsrc_init, [0, 1, 2, 3, 4, 5, 6, 7, 8, 9]⟩
            (grabReply 0 .Failed)).session.queued = [1, 2, 3, 4, 5, 6, 7, 8, 9]
      ∧ (gst_pylonsrc_create ⟨gst_pylonsrc_init, [0, 1, 2, 3, 4, 5, 6, 7, 8, 9]⟩
            (grabReply 0 .Failed)).session.queued.length = 9
      ∧ (gst_pylonsrc_create ⟨gst_pylonsrc_init, [0, 1, 2, 3, 4, 5, 6, 7, 8, 9]⟩
            (grabReply 0 .Grabbed)).session.queued.length = 10 := by
  refine ⟨by rfl, by decide, by decide, by decide, by decide, by decide⟩

/-- One call of `gst_pylonsrc_create` either hands a buffer downstream,
stamped with the counter and the counter plus one, and advances the counter by
one, or returns `GST_FLOW_ERROR` with no buffer and the counter unchanged. -/
theorem gst_pylonsrc_create_counter (s : Session) (r : CreateReply) :
    ((gst_pylonsrc_create s r).flow = .GST_FLOW_OK
        ∧ (∃ size, (gst_pylonsrc_create s r).buf
            = some ⟨size, s.pylonsrc.frameNumber, s.pylonsrc.frameNumber + 1⟩)
        ∧ (gst_pylonsrc_create s r).session.pylonsrc.frameNumber = s.pylonsrc.frameNumber + 1)
      ∨ ((gst_pylonsrc_create s r).flow = .GST_FLOW_ERROR
        ∧ (gst_pylonsrc_create s r).buf = none
        ∧ (gst_pylonsrc_create s r).session.pylonsrc.frameNumber = s.pylonsrc.frameNumber) := by
  unfold gst_pylonsrc_create
  cases r.waitRes <;> simp
  by_cases h1 : r.waitReady = false <;> simp [h1]
  cases r.retrieveRes <;> simp
  by_cases h2 : r.retrieveReady = false <;> simp [h2]
  split
  · simp
  · unfold gst_pylonsrc_create_process
    by_cases h3 : r.grabResult.Status = .Grabbed <;> simp [h3]
    cases r.queueRes <;> simp

/-- The buffers handed downstream from a session whose counter is `n` carry
the offsets `n`, `n + 1`, ... in order, each with offset-end one higher. -/
theorem delivered_offsets_from (rs : List CreateReply) :
    ∀ (s : Session) (k : Nat) (b : GstBuffer), (delivered s rs)[k]? = some b →
      b.offset = s.pylonsrc.frameNumber + k ∧ b.offsetEnd = s.pylonsrc.frameNumber + k + 1 := by
  induction rs with
  | nil =>
    intro s k b h
    simp [delivered, pulls] at h
  | cons r rs ih =>
    intro s k b h
    have hstep : delivered s (r :: rs)
        = match (gst_pylonsrc_create s r).buf with
          | some b0 => b0 :: delivered (gst_pylonsrc_create s r).session rs
          | none => delivered (gst_pylonsrc_create s r).session rs := by
      simp only [delivered, pulls, List.filterMap_cons]
      split <;> simp_all
    rw [hstep] at h
    rcases gst_pylonsrc_create_counter s r with ⟨_, ⟨size, hb⟩, hn⟩ | ⟨_, hb, hn⟩
    · rw [hb] at h
      cases k with
      | zero =>
        simp at h
        subst h
        simp
      | succ k =>
        simp at h
        have := ih _ k b h
        rw [hn] at this
        omega
    · rw [hb] at h
      have := ih _ k b h
      rw [hn] at this
      exact this

/-- One call of `gst_pylonsrc_create`, by the answers of the SDK.  When the
wait and the retrieval succeed and report a buffer, the trigger block lets
control through (continuous mode, or the status poll and the software trigger
succeed), the status is Grabbed and the buffer is queued again, the call
returns `GST_FLOW_OK` with a buffer stamped with the counter and the counter
plus one, and the counter advances by one.  With any other answers it returns
`GST_FLOW_ERROR`, hands over no buffer and leaves the element as it was. -/
theorem gst_pylonsrc_create_delivers (s : Session) (r : CreateReply) :
    ((r.waitRes = .ok ∧ r.waitReady = true ∧ r.retrieveRes = .ok ∧ r.retrieveReady = true
          ∧ (s.pylonsrc.continuousMode = true
              ∨ ((r.statusAvailable = false ∨ r.pollRes = .ok) ∧ r.triggerRes = .ok))
          ∧ r.grabResult.Status = .Grabbed ∧ r.queueRes = .ok) →
        (gst_pylonsrc_create s r).flow = .GST_FLOW_OK
          ∧ (gst_pylonsrc_create s r).buf
            = some ⟨s.pylonsrc.payloadSize, s.pylonsrc.frameNumber, s.pylonsrc.frameNumber + 1⟩
          ∧ (gst_pylonsrc_create s r).session.pylonsrc
            = { s.pylonsrc with frameNumber := s.pylonsrc.frameNumber + 1 })
      ∧ (¬ (r.waitRes = .ok ∧ r.waitReady = true ∧ r.retrieveRes = .ok ∧ r.retrieveReady = true
            ∧ (s.pylonsrc.continuousMode = true
                ∨ ((r.statusAvailable = false ∨ r.pollRes = .ok) ∧ r.triggerRes = .ok))
            ∧ r.grabResult.Status = .Grabbed ∧ r.queueRes = .ok) →
          (gst_pylonsrc_create s r).flow = .GST_FLOW_ERROR
            ∧ (gst_pylonsrc_create s r).buf = none
            ∧ (gst_pylonsrc_create s r).session.pylonsrc = s.pylonsrc) := by
  unfold gst_pylonsrc_create
  cases hw : r.waitRes <;> simp
  cases h1 : r.waitReady <;> simp
  cases hr : r.retrieveRes <;> simp
  cases h2 : r.retrieveReady <;> simp
  unfold gst_pylonsrc_create_trigger gst_pylonsrc_create_process
  cases hc : s.pylonsrc.continuousMode <;> cases ha : r.statusAvailable <;>
    cases hp : r.pollRes <;> cases ht : r.triggerRes <;> cases hq : r.queueRes <;>
    by_cases hs : r.grabResult.Status = .Grabbed <;> simp [hs] <;> exact hc

/-- A call of `gst_pylonsrc_create` does not change the acquisition mode. -/
theorem gst_pylonsrc_create_mode (s : Session) (r : CreateReply) :
    (gst_pylonsrc_create s r).session.pylonsrc.continuousMode = s.pylonsrc.continuousMode := by
  by_cases h : r.waitRes = .ok ∧ r.waitReady = true ∧ r.retrieveRes = .ok
      ∧ r.retrieveReady = true
      ∧ (s.pylonsrc.continuousMode = true
          ∨ ((r.statusAvailable = false ∨ r.pollRes = .ok) ∧ r.triggerRes = .ok))
      ∧ r.grabResult.Status = .Grabbed ∧ r.queueRes = .ok
  · rw [((gst_pylonsrc_create_delivers s r).1 h).2.2]
  · rw [((gst_pylonsrc_create_delivers s r).2 h).2.2]

/-- A sequence of pulls hands downstream one buffer for each pull whose SDK
answers are all successful with status Grabbed, and none for any other. -/
theorem delivered_length (rs : List CreateReply) :
    ∀ (s : Session), (delivered s rs).length
      = (rs.filter (fun r => decide
          (r.waitRes = .ok ∧ r.waitReady = true ∧ r.retrieveRes = .ok ∧ r.retrieveReady = true
            ∧ (s.pylonsrc.continuousMode = true
                ∨ ((r.statusAvailable = false ∨ r.pollRes = .ok) ∧ r.triggerRes = .ok))
            ∧ r.grabResult.Status = .Grabbed ∧ r.queueRes = .ok))).length := by
  induction rs with
  | nil =>
    intro s
    simp [delivered, pulls]
  | cons r rs ih =>
    intro s
    have hstep : delivered s (r :: rs)
        = match (gst_pylonsrc_create s r).buf with
          | some b0 => b0 :: delivered (gst_pylonsrc_create s r).session rs
          | none => delivered (gst_pylonsrc_create s r).session rs := by
      simp only [delivered, pulls, List.filterMap_cons]
      split <;> simp_all
    have hrest := ih (gst_pylonsrc_create s r).session
    rw [gst_pylonsrc_create_mode] at hrest
    rw [hstep]
    by_cases h : r.waitRes = .ok ∧ r.waitReady = true ∧ r.retrieveRes = .ok
        ∧ r.retrieveReady = true
        ∧ (s.pylonsrc.continuousMode = true
            ∨ ((r.statusAvailable = false ∨ r.pollRes = .ok) ∧ r.triggerRes = .ok))
        ∧ r.grabResult.Status = .Grabbed ∧ r.queueRes = .ok
    · rw [((gst_pylonsrc_create_delivers s r).1 h).2.1]
      rw [List.filter_cons_of_pos (by simpa using h)]
      simp only [List.length_cons, hrest]
    · rw [((gst_pylonsrc_create_delivers s r).2 h).2.1]
      rw [List.filter_cons_of_neg (by simpa using h)]
      exact hrest

/-- C9: after a successful start the frame counter is 0.  From there, for
every sequence of pulls and every SDK behaviour, the k-th buffer handed
downstream (k = 0, 1, 2, ...) carries offset k and offset-end k + 1, and the
buffers handed downstream are as many as the pulls whose SDK answers are all
successful with status Grabbed.  For a single pull from any session: a timeout
(the wait fails or reports no buffer), a retrieval failure (the retrieval
fails or reports no buffer) or a status other than Grabbed gives
`GST_FLOW_ERROR`, no buffer and an unchanged counter; a pull whose SDK answers
are all successful with status Grabbed gives `GST_FLOW_OK`, a buffer stamped
with the counter and the counter plus one, and a counter advanced by one; and
every pull that returns `GST_FLOW_ERROR` hands over no buffer and leaves the
counter unchanged. -/
theorem frame_numbers_have_no_gaps (pylonsrc started : GstPylonsrc)
    (startRes triggerRes : GenApiResult) (calls : List Call)
    (hstart : gst_pylonsrc_start_recording pylonsrc startRes triggerRes = (calls, .ok started))
    (queued : List Nat) (rs : List CreateReply) :
    started.frameNumber = 0
      ∧ (∀ (k : Nat) (b : GstBuffer), (delivered ⟨started, queued⟩ rs)[k]? = some b →
          b.offset = k ∧ b.offsetEnd = k + 1)
      ∧ (delivered ⟨started, queued⟩ rs).length
          = (rs.filter (fun r => decide
              (r.waitRes = .ok ∧ r.waitReady = true ∧ r.retrieveRes = .ok
                ∧ r.retrieveReady = true
                ∧ (started.continuousMode = true
                    ∨ ((r.statusAvailable = false ∨ r.pollRes = .ok) ∧ r.triggerRes = .ok))
                ∧ r.grabResult.Status = .Grabbed ∧ r.queueRes = .ok))).length
      ∧ (∀ (s : Session) (r : CreateReply),
          ((r.waitRes = .failed ∨ r.waitReady = false)
              ∨ (r.retrieveRes = .failed ∨ r.retrieveReady = false)
              ∨ r.grabResult.Status ≠ .Grabbed) →
            (gst_pylonsrc_create s r).flow = .GST_FLOW_ERROR
              ∧ (gst_pylonsrc_create s r).buf = none
              ∧ (gst_pylonsrc_create s r).session.pylonsrc.frameNumber
                = s.pylonsrc.frameNumber)
      ∧ (∀ (s : Session) (r : CreateReply),
          (r.waitRes = .ok ∧ r.waitReady = true ∧ r.retrieveRes = .ok ∧ r.retrieveReady = true
              ∧ (s.pylonsrc.continuousMode = true
                  ∨ ((r.statusAvailable = false ∨ r.pollRes = .ok) ∧ r.triggerRes = .ok))
              ∧ r.grabResult.Status = .Grabbed ∧ r.queueRes = .ok) →
            (gst_pylonsrc_create s r).flow = .GST_FLOW_OK
              ∧ (gst_pylonsrc_create s r).buf
                = some ⟨s.pylonsrc.payloadSize, s.pylonsrc.frameNumber,
                    s.pylonsrc.frameNumber + 1⟩
              ∧ (gst_pylonsrc_create s r).session.pylonsrc.frameNumber
                = s.pylonsrc.frameNumber + 1)
      ∧ (∀ (s : Session) (r : CreateReply), (gst_pylonsrc_create s r).flow = .GST_FLOW_ERROR →
          (gst_pylonsrc_create s r).buf = none
            ∧ (gst_pylonsrc_create s r).session.pylonsrc.frameNumber = s.pylonsrc.frameNumber) := by
  have h0 : started.frameNumber = 0 := by
    unfold gst_pylonsrc_start_recording at hstart
    cases startRes <;> simp at hstart
    split at hstart
    · cases triggerRes <;> simp at hstart
      rw [← hstart.2]
    · simp at hstart
      rw [← hstart.2]
  refine ⟨h0, ?_, delivered_length rs ⟨started, queued⟩, ?_, ?_, ?_⟩
  · intro k b h
    have := delivered_offsets_from rs ⟨started, queued⟩ k b h
    simp only [h0, Nat.zero_add] at this
    exact this
  · intro s r hfail
    have hnot : ¬ (r.waitRes = .ok ∧ r.waitReady = true ∧ r.retrieveRes = .ok
        ∧ r.retrieveReady = true
        ∧ (s.pylonsrc.continuousMode = true
            ∨ ((r.statusAvailable = false ∨ r.pollRes = .ok) ∧ r.triggerRes = .ok))
        ∧ r.grabResult.Status = .Grabbed ∧ r.queueRes = .ok) := by
      rintro ⟨a1, a2, a3, a4, _, a6, _⟩
      rcases hfail with (h | h) | (h | h) | h
      · rw [a1] at h
        exact absurd h (by decide)
      · rw [a2] at h
        exact absurd h (by decide)
      · rw [a3] at h
        exact absurd h (by decide)
      · rw [a4] at h
        exact absurd h (by decide)
      · exact h a6
    obtain ⟨hf, hb, hp⟩ := (gst_pylonsrc_create_delivers s r).2 hnot
    exact ⟨hf, hb, by rw [hp]⟩
  · intro s r hok
    obtain ⟨hf, hb, hp⟩ := (gst_pylonsrc_create_delivers s r).1 hok
    exact ⟨hf, hb, by rw [hp]⟩
  · intro s r hflow
    rcases gst_pylonsrc_create_counter s r with ⟨hok, _, _⟩ | ⟨_, hb, hn⟩
    · rw [hok] at hflow
      exact absurd hflow (by decide)
    · exact ⟨hb, hn⟩

/-- C9, an instance: a triggered-mode start from a stale counter of 5, then
three pulls of which the second is a failed grab: two buffers are handed
downstream, with offsets 0 and 1; the failed grab takes no number. -/
theorem frame_numbers_have_no_gaps_witness :
    gst_pylonsrc_start_recording { continuousMode := false, frameNumber := 5 } .ok .ok
        = ([.PylonDeviceExecuteCommandFeature "AcquisitionStart",
            .PylonDeviceExecuteCommandFeature "TriggerSoftware"],
           .ok { continuousMode := false, frameNumber := 0 })
      ∧ (delivered ⟨{ continuousMode := false, frameNumber := 0 }, [0, 1, 2, 3, 4, 5, 6, 7, 8, 9]⟩
            [grabReply 0 .Grabbed, grabReply 1 .Failed, grabReply 2 .Grabbed]).length = 2
      ∧ (∀ (k : Nat) (b : GstBuffer),
          (delivered ⟨{ continuousMode := false, frameNumber := 0 }, [0, 1, 2, 3, 4, 5, 6, 7, 8, 9]⟩
              [grabReply 0 .Grabbed, grabReply 1 .Failed, grabReply 2 .Grabbed])[k]? = some b →
            b.offset = k ∧ b.offsetEnd = k + 1)
      ∧ delivered ⟨{ continuousMode := false, frameNumber := 0 }, [0, 1, 2, 3, 4, 5, 6, 7, 8, 9]⟩
            [grabReply 0 .Grabbed, grabReply 1 .Failed, grabReply 2 .Grabbed]
          = [⟨0, 0, 1⟩, ⟨0, 1, 2⟩] :=
  ⟨rfl,
    (frame_numbers_have_no_gaps { continuousMode := false, frameNumber := 5 }
      { continuousMode := false, frameNumber := 0 } .ok .ok
      [.PylonDeviceExecuteCommandFeature "AcquisitionStart",
       .PylonDeviceExecuteCommandFeature "TriggerSoftware"] rfl
      [0, 1, 2, 3, 4, 5, 6, 7, 8, 9]
      [grabReply 0 .Grabbed, grabReply 1 .Failed, grabReply 2 .Grabbed]).2.2.1.trans (by decide),
    (frame_numbers_have_no_gaps { continuousMode := false, frameNumber := 5 }
      { continuousMode := false, frameNumber := 0 } .ok .ok
      [.PylonDeviceExecuteCommandFeature "AcquisitionStart",
       .PylonDeviceExecuteCommandFeature "TriggerSoftware"] rfl
      [0, 1, 2, 3, 4, 5, 6, 7, 8, 9]
      [grabReply 0 .Grabbed, grabReply 1 .Failed, grabReply 2 .Grabbed]).2.1,
    by decide⟩

/-- C10: a call of `gst_pylonsrc_create` whose wait succeeds but ends with
`bufferReady` false returns `GST_FLOW_ERROR`; the only SDK call made is
`PylonWaitObjectWait` with 1000 ms (no retrieval, no trigger, no queueing),
and the session, with its grabber queue and its frame counter, is unchanged. -/
theorem wait_timeout_leaves_session_unchanged (s : Session) (r : CreateReply)
    (hres : r.waitRes = .ok) (htimeout : r.waitReady = false) :
    gst_pylonsrc_create s r
        = { flow := .GST_FLOW_ERROR, buf := none, session := s,
            calls := [.PylonWaitObjectWait 1000] }
      ∧ (gst_pylonsrc_create s r).session.queued = s.queued
      ∧ (gst_pylonsrc_create s r).session.queued.length = s.queued.length
      ∧ (gst_pylonsrc_create s r).session.pylonsrc.frameNumber = s.pylonsrc.frameNumber
      ∧ Call.PylonStreamGrabberRetrieveResult ∉ (gst_pylonsrc_create s r).calls
      ∧ Call.PylonDeviceExecuteCommandFeature "TriggerSoftware" ∉ (gst_pylonsrc_create s r).calls
      ∧ (∀ c, Call.PylonStreamGrabberQueueBuffer c ∉ (gst_pylonsrc_create s r).calls) := by
  simp [gst_pylonsrc_create, hres, htimeout]

/-- C10, an instance: all ten buffers queued, counter 3, and a wait that
times out. -/
theorem wait_timeout_leaves_session_unchanged_witness :
    ((({ grabReply 0 .Grabbed with waitReady := false } : CreateReply).waitRes = .ok)
        ∧ ({ grabReply 0 .Grabbed with waitReady := false } : CreateReply).waitReady = false)
      ∧ gst_pylonsrc_create ⟨{ frameNumber := 3 }, [0, 1, 2, 3, 4, 5, 6, 7, 8, 9]⟩
            { grabReply 0 .Grabbed with waitReady := false }
          = { flow := .GST_FLOW_ERROR, buf := none,
              session := ⟨{ frameNumber := 3 }, [0, 1, 2, 3, 4, 5, 6, 7, 8, 9]⟩,
              calls := [.PylonWaitObjectWait 1000] } :=
  ⟨⟨rfl, rfl⟩,
    (wait_timeout_leaves_session_unchanged ⟨{ frameNumber := 3 }, [0, 1, 2, 3, 4, 5, 6, 7, 8, 9]⟩
      { grabReply 0 .Grabbed with waitReady := false } rfl rfl).1⟩

/-! ## Theorems: frame-rate filter -/

/-- A frame that keeps the accumulated time below the report interval is
counted and logs nothing. -/
theorem gst_fps_filter_chain_within_window (f e r : Int) (t0 d : Nat) (h : e + d < r) :
    gst_fps_filter_chain ⟨f, t0, e, r⟩ true (t0 + d)
      = some (⟨f + 1, (t0 + d : Nat), e + d, r⟩, none) := by
  have h2 : ¬ (r ≤ e + d) := by omega
  simp [gst_fps_filter_chain, h2]

/-- The list of `n + 1` steady frames is the list of `n` steady frames followed
by one more frame. -/
theorem steadyFrames_succ (d n : Nat) :
    ∀ t0 : Nat, steadyFrames t0 d (n + 1) = steadyFrames t0 d n ++ [(true, t0 + n * d + d)] := by
  induction n with
  | zero => intro t0; simp [steadyFrames]
  | succ n ih =>
    intro t0
    have harith : t0 + d + n * d + d = t0 + (n + 1) * d + d := by ring
    rw [steadyFrames, ih (t0 + d), harith]
    simp only [steadyFrames, List.cons_append]

/-- While `n` steady frames keep the accumulated time below the report
interval, they log nothing and leave the filter with `n` more frames counted
and `n * d` more milliseconds accumulated; the frames after them are processed
from that state. -/
theorem gst_fps_filter_run_within_window (d : Nat) (r : Int) (n : Nat) :
    ∀ (f e : Int) (t0 : Nat) (rest : List (Bool × Nat)), e + n * d < r →
      ∃ outs, outs.length = n ∧ (∀ o ∈ outs, o.2 = none)
        ∧ gst_fps_filter_run ⟨f, t0, e, r⟩ (steadyFrames t0 d n ++ rest)
          = (gst_fps_filter_run ⟨f + n, (t0 + n * d : Nat), e + n * d, r⟩ rest).map
              (fun more => outs ++ more) := by
  induction n with
  | zero =>
    intro f e t0 rest _
    refine ⟨[], rfl, by simp, ?_⟩
    simp [steadyFrames]
  | succ n ih =>
    intro f e t0 rest h
    have hd : (0 : Int) ≤ d := Int.ofNat_nonneg d
    have hnd : (0 : Int) ≤ n * d := mul_nonneg (Int.ofNat_nonneg n) hd
    have h1 : e + d < r := by push_cast at h; nlinarith
    have h2 : (e + d) + n * d < r := by push_cast at h; nlinarith
    obtain ⟨outs, hl, hn, ho⟩ := ih (f + 1) (e + d) (t0 + d) rest h2
    refine ⟨(⟨f + 1, (t0 + d : Nat), e + d, r⟩, none) :: outs, by simp [hl],
      by simpa using hn, ?_⟩
    have hstate : (⟨f + 1 + n, (t0 + d + n * d : Nat), e + d + n * d, r⟩ : GstFpsFilter)
        = ⟨f + (n + 1 : Nat), (t0 + (n + 1) * d : Nat), e + (n + 1 : Nat) * d, r⟩ := by
      congr 1
      · push_cast; ring
      · push_cast; ring
      · push_cast; ring
    rw [hstate] at ho
    have hrun : gst_fps_filter_run ⟨f, t0, e, r⟩ (steadyFrames t0 d (n + 1) ++ rest)
        = match gst_fps_filter_run ⟨f + 1, (t0 + d : Nat), e + d, r⟩
              (steadyFrames (t0 + d) d n ++ rest) with
          | none => none
          | some more => some ((⟨f + 1, (t0 + d : Nat), e + d, r⟩, none) :: more) := by
      rw [steadyFrames, List.cons_append, gst_fps_filter_run,
        gst_fps_filter_chain_within_window f e r t0 d h1]
    rw [hrun, ho]
    cases gst_fps_filter_run ⟨f + (n + 1 : Nat), (t0 + (n + 1) * d : Nat),
      e + (n + 1 : Nat) * d, r⟩ rest <;> rfl

/-- C11: with the report interval at 1000 ms and an empty window (frames 0,
elapsed time 0, last frame at any clock time t0), 34 frames that each arrive
30 ms after the previous one are processed as follows: frames 1 to 33 log
nothing, and frame 34 logs a report of 33 frames over 1000 ms (33 fps) and
leaves 1 frame and 20 ms in the window. -/
theorem fps_report_after_34_frames (t0 : Nat) :
    ∃ silent : List (GstFpsFilter × Option FpsReport),
      silent.length = 33 ∧ (∀ o ∈ silent, o.2 = none)
        ∧ gst_fps_filter_run ⟨0, t0, 0, 1000⟩ (steadyFrames t0 30 34)
          = some (silent ++ [(⟨1, (t0 + 1020 : Nat), 20, 1000⟩, some ⟨33, 1000⟩)])
        ∧ (⟨33, 1000⟩ : FpsReport).fps = 33 := by
  obtain ⟨outs, hl, hn, ho⟩ :=
    gst_fps_filter_run_within_window 30 1000 33 0 0 t0 [(true, t0 + 33 * 30 + 30)] (by norm_num)
  refine ⟨outs, hl, hn, ?_, by norm_num [FpsReport.fps]⟩
  rw [steadyFrames_succ, ho]
  simp [gst_fps_filter_run, gst_fps_filter_chain, Int.tmod]
  omega

/-- C12, the code at the failing input: the first frame after
`gst_fps_filter_init`, at clock time 5000 ms, adds 5000 ms to the elapsed time
(`time - lastframetime` with `lastframetime` still 0) and at once logs a
report of 0 frames over 5000 ms; at clock time 500 ms it adds 500 ms.  The
delta of the first frame is the clock time, not zero. -/
theorem first_frame_adds_clock_time :
    gst_fps_filter_chain gst_fps_filter_init true 5000
        = some (⟨1, 5000, 0, 1000⟩, some ⟨0, 5000⟩)
      ∧ gst_fps_filter_chain gst_fps_filter_init true 500
        = some (⟨1, 500, 500, 1000⟩, none) := by
  constructor <;> decide

/-- One call of `gst_fps_filter_chain` on a filter with a positive report
interval, an accumulated time in [0, interval) and a last frame time not after
the clock time has a result, and keeps the interval and the two bounds; the
last frame time afterwards is the clock time or the old one. -/
theorem gst_fps_filter_chain_bounds (s : GstFpsFilter) (playing : Bool) (time : Nat)
    (hr : 0 < s.reporttime) (h0 : 0 ≤ s.elapsedtime) (h1 : s.elapsedtime < s.reporttime)
    (hl : s.lastframetime ≤ time) :
    ∃ out, gst_fps_filter_chain s playing time = some out
      ∧ out.1.reporttime = s.reporttime ∧ 0 ≤ out.1.elapsedtime
      ∧ out.1.elapsedtime < s.reporttime
      ∧ (out.1.lastframetime = time ∨ out.1.lastframetime = s.lastframetime) := by
  unfold gst_fps_filter_chain
  by_cases hp : playing = true
  · simp only [hp, if_true]
    by_cases hge : s.elapsedtime + ((time : Int) - s.lastframetime) ≥ s.reporttime
    · have hnn : 0 ≤ s.elapsedtime + ((time : Int) - s.lastframetime) := by omega
      by_cases hne : s.elapsedtime + ((time : Int) - s.lastframetime) ≠ s.reporttime
      · have hr0 : s.reporttime ≠ 0 := by omega
        have m0 := Int.tmod_nonneg s.reporttime hnn
        have m1 := Int.tmod_lt_of_pos (s.elapsedtime + ((time : Int) - s.lastframetime)) hr
        simp only [hge, hne, hr0, if_true, if_false, ne_eq, not_false_eq_true]
        refine ⟨_, rfl, rfl, ?_, ?_, Or.inl rfl⟩
        · simp only []
          omega
        · simp only []
          omega
      · simp only [hge, hne, if_true, if_false]
        refine ⟨_, rfl, rfl, ?_, ?_, Or.inl rfl⟩
        · simp
        · simp only []
          omega
    · simp only [hge, if_false]
      refine ⟨_, rfl, rfl, ?_, ?_, Or.inl rfl⟩
      · simp only []
        omega
      · simp only []
        omega
  · simp only [hp]
    exact ⟨_, rfl, rfl, h0, h1, Or.inr rfl⟩

/-- Along a run with non-decreasing clock times, from a filter within the
bounds of `gst_fps_filter_chain_bounds`, every call has a result and the
accumulated time after every call lies in [0, interval). -/
theorem gst_fps_filter_run_bounds (frames : List (Bool × Nat)) :
    ∀ (s : GstFpsFilter), 0 < s.reporttime → 0 ≤ s.elapsedtime →
      s.elapsedtime < s.reporttime → (∀ x ∈ frames, s.lastframetime ≤ x.2) →
      List.Pairwise (fun a b => a ≤ b) (frames.map Prod.snd) →
      ∃ outs, gst_fps_filter_run s frames = some outs ∧ outs.length = frames.length
        ∧ ∀ o ∈ outs, 0 ≤ o.1.elapsedtime ∧ o.1.elapsedtime < s.reporttime := by
  induction frames with
  | nil =>
    intro s _ _ _ _ _
    exact ⟨[], rfl, rfl, by simp⟩
  | cons x rest ih =>
    intro s hr h0 h1 hl hp
    obtain ⟨playing, time⟩ := x
    have hlt : s.lastframetime ≤ time := hl (playing, time) (by simp)
    obtain ⟨out, hout, hrt, b0, b1, hlast⟩ :=
      gst_fps_filter_chain_bounds s playing time hr h0 h1 hlt
    simp only [List.map_cons, List.pairwise_cons] at hp
    have hl2 : ∀ y ∈ rest, out.1.lastframetime ≤ y.2 := by
      intro y hy
      rcases hlast with h | h
      · rw [h]
        exact_mod_cast hp.1 y.2 (List.mem_map_of_mem Prod.snd hy)
      · rw [h]
        exact hl y (by simp [hy])
    obtain ⟨outs, houts, hlen, hall⟩ :=
      ih out.1 (by rw [hrt]; exact hr) b0 (by rw [hrt]; exact b1) hl2 hp.2
    refine ⟨out :: outs, ?_, by simp [hlen], ?_⟩
    · simp only [gst_fps_filter_run, hout, houts]
    · intro o ho
      rcases List.mem_cons.mp ho with h | h
      · rw [h]
        exact ⟨b0, b1⟩
      · have := hall o h
        rw [hrt] at this
        exact this

/-- C13: for every positive report interval and every sequence of frames
with non-decreasing clock times, processed from the initial state, every call
of `gst_fps_filter_chain` returns and the accumulated elapsed time after each
call is below twice the report interval (it is in fact non-negative and below
the interval itself). -/
theorem elapsed_time_below_twice_interval (reporttime : Int) (frames : List (Bool × Nat))
    (hr : 0 < reporttime)
    (hsorted : List.Pairwise (fun a b => a ≤ b) (frames.map Prod.snd)) :
    ∃ outs, gst_fps_filter_run { gst_fps_filter_init with reporttime := reporttime } frames
          = some outs
      ∧ outs.length = frames.length
      ∧ ∀ o ∈ outs, o.1.elapsedtime < 2 * reporttime
          ∧ 0 ≤ o.1.elapsedtime ∧ o.1.elapsedtime < reporttime := by
  obtain ⟨outs, h, hlen, hall⟩ :=
    gst_fps_filter_run_bounds frames { gst_fps_filter_init with reporttime := reporttime }
      hr (le_refl (0 : Int)) hr (fun x _ => by simp [gst_fps_filter_init]) hsorted
  refine ⟨outs, h, hlen, fun o ho => ?_⟩
  have := hall o ho
  simp only [] at this
  exact ⟨by omega, this.1, this.2⟩

/-- C13, an instance: report interval 1000 ms; a first frame at clock time
5000 ms, a frame while not playing, and two more frames. -/
theorem elapsed_time_below_twice_interval_witness :
    ((0 : Int) < 1000
        ∧ List.Pairwise (fun a b => a ≤ b)
            ([(true, 5000), (false, 5010), (true, 5040), (true, 7100)].map Prod.snd))
      ∧ ∃ outs, gst_fps_filter_run { gst_fps_filter_init with reporttime := 1000 }
            [(true, 5000), (false, 5010), (true, 5040), (true, 7100)] = some outs
          ∧ outs.length = [(true, 5000), (false, 5010), (true, 5040), (true, 7100)].length
          ∧ ∀ o ∈ outs, o.1.elapsedtime < 2 * 1000
              ∧ 0 ≤ o.1.elapsedtime ∧ o.1.elapsedtime < 1000 :=
  ⟨⟨by decide, by decide⟩,
    elapsed_time_below_twice_interval 1000
      [(true, 5000), (false, 5010), (true, 5040), (true, 7100)] (by decide) (by decide)⟩

/-! ## Theorems: failure policy and teardown -/

/-- After `pylonc_disconnect_camera` the global `deviceConnected` is `FALSE`. -/
theorem pylonc_disconnect_camera_flag (pylonsrc : GstPylonsrc) (deviceConnected : Bool)
    (dev : ResetReply) : (pylonc_disconnect_camera pylonsrc deviceConnected dev).2 = false := by
  cases deviceConnected <;> simp [pylonc_disconnect_camera]

/-- A call of `gst_pylonsrc_start` either returns `TRUE` or leaves
`deviceConnected` at `FALSE`. -/
theorem gst_pylonsrc_start_true_or_disconnected (pylonsrc : GstPylonsrc)
    (deviceConnected : Bool) (dev : StartReply) :
    (gst_pylonsrc_start pylonsrc deviceConnected dev).ret = true
      ∨ (gst_pylonsrc_start pylonsrc deviceConnected dev).deviceConnected = false := by
  unfold gst_pylonsrc_start
  split
  · exact Or.inr (pylonc_disconnect_camera_flag _ _ _)
  · dsimp only
    split
    · exact Or.inr (pylonc_disconnect_camera_flag _ _ _)
    · split
      · exact Or.inr (pylonc_disconnect_camera_flag _ _ _)
      · split
        · exact Or.inr (pylonc_disconnect_camera_flag _ _ _)
        · split
          · exact Or.inr (pylonc_disconnect_camera_flag _ _ _)
          · exact Or.inl rfl

/-- C14: for every element, every value of the global `deviceConnected` at the
call and every behaviour of the SDK, whenever `gst_pylonsrc_start` returns
`FALSE` the global `deviceConnected` is `FALSE` afterwards. -/
theorem start_failure_leaves_disconnected (pylonsrc : GstPylonsrc) (deviceConnected : Bool)
    (dev : StartReply)
    (hfail : (gst_pylonsrc_start pylonsrc deviceConnected dev).ret = false) :
    (gst_pylonsrc_start pylonsrc deviceConnected dev).deviceConnected = false := by
  rcases gst_pylonsrc_start_true_or_disconnected pylonsrc deviceConnected dev with h | h
  · rw [h] at hfail
    exact absurd hfail (by decide)
  · exact h

/-- C14, an instance: one camera, the connection succeeds, and a configuration
block then fails with the invalid-parameters error. -/
theorem start_failure_leaves_disconnected_witness :
    (gst_pylonsrc_start gst_pylonsrc_init false
        (acceptingStart (some (.element "Invalid parameters provided")))).ret = false
      ∧ (gst_pylonsrc_start gst_pylonsrc_init false
          (acceptingStart (some (.element "Invalid parameters provided")))).deviceConnected
        = false :=
  ⟨by decide,
    start_failure_leaves_disconnected gst_pylonsrc_init false
      (acceptingStart (some (.element "Invalid parameters provided"))) (by decide)⟩

/-- C15: for every element, every value of `deviceConnected` and every answer
of the device, a second call of `pylonc_disconnect_camera` makes no call at
all and leaves `deviceConnected` as the first call left it, namely `FALSE`;
a call with no device connected makes no call and changes nothing; the same
holds for `gst_pylonsrc_stop`, which only calls it. -/
theorem disconnect_twice_is_disconnect_once (pylonsrc : GstPylonsrc) (deviceConnected : Bool)
    (first second : ResetReply) :
    pylonc_disconnect_camera pylonsrc
        (pylonc_disconnect_camera pylonsrc deviceConnected first).2 second
        = ([], (pylonc_disconnect_camera pylonsrc deviceConnected first).2)
      ∧ (pylonc_disconnect_camera pylonsrc deviceConnected first).2 = false
      ∧ pylonc_disconnect_camera pylonsrc false first = ([], false)
      ∧ gst_pylonsrc_stop pylonsrc
          (gst_pylonsrc_stop pylonsrc deviceConnected first).2.2 second
        = (true, [], (gst_pylonsrc_stop pylonsrc deviceConnected first).2.2) := by
  cases deviceConnected <;> simp [gst_pylonsrc_stop, pylonc_disconnect_camera]

/-! ## Theorems: configuration record and properties -/

/-- C16 (as the code has it): every property whose field the start-up code
compares with a "not set" constant has a declared numeric range, and the
constant is the value `gst_pylonsrc_init` gives the field.  For offsetx,
offsety, camera, the balance ratios, the hue and saturation values, the
auto-function limits, the brightness target, noise reduction, sharpness
enhancement and the transformation cells the constant lies above the declared
maximum.  For height, width, maxbandwidth, fps and exposure the constant is 0,
which is the declared minimum: the legal value 0 is the "not set" value. -/
theorem unset_markers_against_ranges (p : Property) (v : GValue)
    (hmarker : unsetMarker p = some v) :
    gst_pylonsrc_set_property gst_pylonsrc_init p v = gst_pylonsrc_init
      ∧ ∃ range, gst_pylonsrc_class_init p = some range
          ∧ (p ∉ [Property.PROP_HEIGHT, .PROP_WIDTH, .PROP_MAXBANDWIDTH, .PROP_FPS,
                  .PROP_EXPOSURE] → range.maximum < v.toRat)
          ∧ (p ∈ [Property.PROP_HEIGHT, .PROP_WIDTH, .PROP_MAXBANDWIDTH, .PROP_FPS,
                  .PROP_EXPOSURE] → v.toRat = 0 ∧ range.minimum = 0) := by
  cases p <;> simp only [unsetMarker, Option.some.injEq, reduceCtorEq] at hmarker <;>
    subst hmarker <;>
    refine ⟨rfl, _, rfl, ?_, ?_⟩
  all_goals first
    | (intro _; norm_num [GValue.toRat]; done)
    | (intro h; exact absurd h (by decide))

/-- C16, an instance: the property offsetx with its constant 99999. -/
theorem unset_markers_against_ranges_witness :
    unsetMarker .PROP_OFFSETX = some (.int 99999)
      ∧ gst_pylonsrc_set_property gst_pylonsrc_init .PROP_OFFSETX (.int 99999)
        = gst_pylonsrc_init :=
  ⟨rfl, (unset_markers_against_ranges .PROP_OFFSETX (.int 99999) rfl).1⟩

/-- C16, the claim as written fails: the "not set" constant of width is 0,
the value `gst_pylonsrc_init` gives the field, and the declared range of the
property width is [0, 10000], which contains 0. -/
theorem width_marker_inside_declared_range :
    unsetMarker .PROP_WIDTH = some (.int 0)
      ∧ gst_pylonsrc_init.width = 0
      ∧ gst_pylonsrc_class_init .PROP_WIDTH = some ⟨0, 10000⟩
      ∧ (0 : ℚ) ≤ (GValue.int 0).toRat ∧ (GValue.int 0).toRat ≤ 10000 := by
  refine ⟨rfl, rfl, rfl, ?_, ?_⟩ <;> norm_num [GValue.toRat]

/-- C19, the code at the failing input: after exposureupperlimit is set to 200
on a fresh element the field holds 200, but `gst_pylonsrc_get_property`
returns 999, the value of the field `sharpnessenhancement`; the same happens
for exposurelowerlimit, gainlowerlimit, gainupperlimit and
autobrightnesstarget.  After autoprofile is set to "gain" the getter returns
"default", the value of `transformationselector`, because its case falls
through into the next one. -/
theorem limit_getters_return_sharpness :
    (gst_pylonsrc_set_property gst_pylonsrc_init .PROP_AUTOEXPOSUREUPPERLIMIT
        (.double 200)).autoexposureupperlimit = 200
      ∧ gst_pylonsrc_get_property
          (gst_pylonsrc_set_property gst_pylonsrc_init .PROP_AUTOEXPOSUREUPPERLIMIT (.double 200))
          .PROP_AUTOEXPOSUREUPPERLIMIT = .double 999
      ∧ gst_pylonsrc_get_property
          (gst_pylonsrc_set_property gst_pylonsrc_init .PROP_AUTOEXPOSURELOWERLIMIT (.double 500))
          .PROP_AUTOEXPOSURELOWERLIMIT = .double 999
      ∧ gst_pylonsrc_get_property
          (gst_pylonsrc_set_property gst_pylonsrc_init .PROP_GAINLOWERLIMIT (.double 1))
          .PROP_GAINLOWERLIMIT = .double 999
      ∧ gst_pylonsrc_get_property
          (gst_pylonsrc_set_property gst_pylonsrc_init .PROP_GAINUPPERLIMIT (.double 10))
          .PROP_GAINUPPERLIMIT = .double 999
      ∧ gst_pylonsrc_get_property
          (gst_pylonsrc_set_property gst_pylonsrc_init .PROP_AUTOBRIGHTNESSTARGET (.double (1 / 2)))
          .PROP_AUTOBRIGHTNESSTARGET = .double 999
      ∧ (gst_pylonsrc_set_property gst_pylonsrc_init .PROP_AUTOPROFILE
          (.string "gain")).autoprofile = "gain"
      ∧ gst_pylonsrc_get_property
          (gst_pylonsrc_set_property gst_pylonsrc_init .PROP_AUTOPROFILE (.string "gain"))
          .PROP_AUTOPROFILE = .string "default"
      ∧ gst_pylonsrc_get_property
          (gst_pylonsrc_set_property gst_pylonsrc_init .PROP_WIDTH (.int 1280))
          .PROP_WIDTH = .int 1280 := by
  refine ⟨rfl, rfl, rfl, rfl, rfl, rfl, rfl, rfl, rfl⟩

/-! ## Theorems: resolution, pixel format, gain limits -/

/-- C17, the code at the failing input: on a device that offers every pixel
format, the request bgr8 (in any letter case) writes "RGB8" to the device
feature PixelFormat, the same name as the request rgb8, not "BGR8"; the
requests ycbcr422_8 and mono8 write "YCbCr422_8" and "Mono8". -/
theorem bgr8_sets_rgb8 :
    (gst_pylonsrc_start_set_pixel_format { imageFormat := "bgr8" } (fun _ => true) .ok).1
        = [.PylonDeviceFeatureFromString "PixelFormat" "RGB8"]
      ∧ (gst_pylonsrc_start_set_pixel_format { imageFormat := "BGR8" } (fun _ => true) .ok).1
        = [.PylonDeviceFeatureFromString "PixelFormat" "RGB8"]
      ∧ (gst_pylonsrc_start_set_pixel_format { imageFormat := "rgb8" } (fun _ => true) .ok).1
        = [.PylonDeviceFeatureFromString "PixelFormat" "RGB8"]
      ∧ (gst_pylonsrc_start_set_pixel_format { imageFormat := "ycbcr422_8" } (fun _ => true) .ok).1
        = [.PylonDeviceFeatureFromString "PixelFormat" "YCbCr422_8"]
      ∧ (gst_pylonsrc_start_set_pixel_format { imageFormat := "Mono8" } (fun _ => true) .ok).1
        = [.PylonDeviceFeatureFromString "PixelFormat" "Mono8"] := by
  refine ⟨by decide, by decide, by decide, by decide, by decide⟩

/-- C20, the code at the failing input: with gainupperlimit 10 requested and
gainlowerlimit left unset (999.0), on a device that offers both limits, the
upper-limit block compares the unset lower limit with the upper limit
(999 >= 10) and fails with the invalid-parameters error; AutoGainUpperLimit is
not written.  With the lower limit requested as well (1 and 10) both limits
are written. -/
theorem unset_lower_gain_limit_is_compared :
    gst_pylonsrc_start_auto_gain_limits { gainupperlimit := 10 } ⟨true, .ok, true, .ok⟩
        = ([], some (.element "Invalid parameters provided"))
      ∧ gst_pylonsrc_start_auto_gain_limits { gainlowerlimit := 1, gainupperlimit := 10 }
          ⟨true, .ok, true, .ok⟩
        = ([.PylonDeviceSetFloatFeature "AutoGainLowerLimit" 1,
            .PylonDeviceSetFloatFeature "AutoGainUpperLimit" 10], none) := by
  constructor <;> decide

/-- C18: on a camera that reports Width, Height, WidthMax and HeightMax (all
four reads succeed, the maxima are not negative) and accepts the two writes:
if no custom size is requested the device defaults are committed; if a custom
width or height is requested, the block fails with the wrong-width or
wrong-height error when a requested dimension exceeds its maximum, and
otherwise commits each requested dimension unchanged and the device default
for a dimension left at 0.  With defaults 1920 x 1200 and nothing requested,
1920 x 1200 is committed. -/
theorem resolution_defaults_and_limits (pylonsrc : GstPylonsrc) (dev : ResolutionReply)
    (hreport : dev.implWidth = true ∧ dev.implHeight = true
      ∧ dev.getWidthRes = .ok ∧ dev.getHeightRes = .ok)
    (hmax : dev.implWidthMax = true ∧ dev.implHeightMax = true
      ∧ dev.getWidthMaxRes = .ok ∧ dev.getHeightMaxRes = .ok)
    (hnonneg : 0 ≤ dev.widthMax ∧ 0 ≤ dev.heightMax)
    (haccept : dev.setWidthRes = .ok ∧ dev.setHeightRes = .ok) :
    (pylonsrc.width = 0 → pylonsrc.height = 0 →
        gst_pylonsrc_start_set_resolution pylonsrc dev
          = ([.PylonDeviceGetIntegerFeature "Width", .PylonDeviceGetIntegerFeature "Height",
              .PylonDeviceGetIntegerFeature "WidthMax", .PylonDeviceGetIntegerFeature "HeightMax",
              .PylonDeviceSetIntegerFeature "Width" dev.width,
              .PylonDeviceSetIntegerFeature "Height" dev.height],
             .ok { pylonsrc with maxWidth := dev.widthMax, maxHeight := dev.heightMax,
                                 width := dev.width, height := dev.height }))
      ∧ (pylonsrc.width ≠ 0 → pylonsrc.width > dev.widthMax →
          gst_pylonsrc_start_set_resolution pylonsrc dev
            = ([.PylonDeviceGetIntegerFeature "Width", .PylonDeviceGetIntegerFeature "Height",
                .PylonDeviceGetIntegerFeature "WidthMax",
                .PylonDeviceGetIntegerFeature "HeightMax"],
               .error (.element "Wrong width specified")))
      ∧ (pylonsrc.height ≠ 0 → pylonsrc.height > dev.heightMax →
          ¬ (pylonsrc.width ≠ 0 ∧ pylonsrc.width > dev.widthMax) →
          gst_pylonsrc_start_set_resolution pylonsrc dev
            = ([.PylonDeviceGetIntegerFeature "Width", .PylonDeviceGetIntegerFeature "Height",
                .PylonDeviceGetIntegerFeature "WidthMax",
                .PylonDeviceGetIntegerFeature "HeightMax"],
               .error (.element "Wrong height specified")))
      ∧ ((pylonsrc.width ≠ 0 ∨ pylonsrc.height ≠ 0) →
          ¬ (pylonsrc.width ≠ 0 ∧ pylonsrc.width > dev.widthMax) →
          ¬ (pylonsrc.height ≠ 0 ∧ pylonsrc.height > dev.heightMax) →
          gst_pylonsrc_start_set_resolution pylonsrc dev
            = ([.PylonDeviceGetIntegerFeature "Width", .PylonDeviceGetIntegerFeature "Height",
                .PylonDeviceGetIntegerFeature "WidthMax",
                .PylonDeviceGetIntegerFeature "HeightMax",
                .PylonDeviceSetIntegerFeature "Width"
                  (if pylonsrc.width = 0 then dev.width else pylonsrc.width),
                .PylonDeviceSetIntegerFeature "Height"
                  (if pylonsrc.height = 0 then dev.height else pylonsrc.height)],
               .ok { pylonsrc with
                      maxWidth := dev.widthMax, maxHeight := dev.heightMax,
                      width := if pylonsrc.width = 0 then dev.width else pylonsrc.width,
                      height := if pylonsrc.height = 0 then dev.height else pylonsrc.height }))
      ∧ (gst_pylonsrc_start_set_resolution gst_pylonsrc_init
            ⟨true, true, .ok, 1920, .ok, 1200, true, true, .ok, 1920, .ok, 1200, .ok, .ok⟩).1
          = [.PylonDeviceGetIntegerFeature "Width", .PylonDeviceGetIntegerFeature "Height",
             .PylonDeviceGetIntegerFeature "WidthMax", .PylonDeviceGetIntegerFeature "HeightMax",
             .PylonDeviceSetIntegerFeature "Width" 1920,
             .PylonDeviceSetIntegerFeature "Height" 1200] := by
  obtain ⟨r1, r2, r3, r4⟩ := hreport
  obtain ⟨m1, m2, m3, m4⟩ := hmax
  obtain ⟨n1, n2⟩ := hnonneg
  obtain ⟨a1, a2⟩ := haccept
  have nw : ¬ dev.widthMax < 0 := by omega
  have nh : ¬ dev.heightMax < 0 := by omega
  refine ⟨?_, ?_, ?_, ?_, by decide⟩
  · intro hw hh
    simp [gst_pylonsrc_start_set_resolution, gst_pylonsrc_start_read_maxima,
      gst_pylonsrc_start_choose_resolution, gst_pylonsrc_start_write_resolution,
      r1, r2, r3, r4, m1, m2, m3, m4, a1, a2, hw, hh]
  · intro hw hgt
    have hgt2 : dev.widthMax < pylonsrc.width := hgt
    simp [gst_pylonsrc_start_set_resolution, gst_pylonsrc_start_read_maxima,
      gst_pylonsrc_start_choose_resolution, r1, r2, r3, r4, m1, m2, m3, m4, hw, hgt2]
  · intro hh hgt hwok
    have hgt2 : dev.heightMax < pylonsrc.height := hgt
    have hwle : ¬ dev.widthMax < pylonsrc.width := by
      intro h
      by_cases h0 : pylonsrc.width = 0
      · rw [h0] at h
        omega
      · exact hwok ⟨h0, h⟩
    by_cases h0 : pylonsrc.width = 0 <;>
      simp [gst_pylonsrc_start_set_resolution, gst_pylonsrc_start_read_maxima,
        gst_pylonsrc_start_choose_resolution, r1, r2, r3, r4, m1, m2, m3, m4, hh, hgt2, hwle, h0,
        nw, nh]
  · intro hcustom hwok hhok
    have hwle : ¬ dev.widthMax < pylonsrc.width := by
      intro h
      by_cases h0 : pylonsrc.width = 0
      · rw [h0] at h
        omega
      · exact hwok ⟨h0, h⟩
    have hhle : ¬ dev.heightMax < pylonsrc.height := by
      intro h
      by_cases h0 : pylonsrc.height = 0
      · rw [h0] at h
        omega
      · exact hhok ⟨h0, h⟩
    by_cases hw0 : pylonsrc.width = 0 <;> by_cases hh0 : pylonsrc.height = 0 <;>
      simp [gst_pylonsrc_start_set_resolution, gst_pylonsrc_start_read_maxima,
        gst_pylonsrc_start_choose_resolution, gst_pylonsrc_start_write_resolution,
        r1, r2, r3, r4, m1, m2, m3, m4, a1, a2, hw0, hh0, hwle, hhle, nw, nh]

/-- C18, an instance: width 1280 requested, height left unset, on a camera
with defaults and maxima 1920 x 1200 that accepts the writes. -/
theorem resolution_defaults_and_limits_witness :
    (((true = true ∧ true = true ∧ GenApiResult.ok = .ok ∧ GenApiResult.ok = .ok)
        ∧ ((0 : Int) ≤ 1920 ∧ (0 : Int) ≤ 1200))
        ∧ ((1280 : Int) ≠ 0 ∨ (0 : Int) ≠ 0))
      ∧ (gst_pylonsrc_start_set_resolution { width := 1280 }
            ⟨true, true, .ok, 1920, .ok, 1200, true, true, .ok, 1920, .ok, 1200, .ok, .ok⟩).1
          = [.PylonDeviceGetIntegerFeature "Width", .PylonDeviceGetIntegerFeature "Height",
             .PylonDeviceGetIntegerFeature "WidthMax", .PylonDeviceGetIntegerFeature "HeightMax",
             .PylonDeviceSetIntegerFeature "Width" 1280,
             .PylonDeviceSetIntegerFeature "Height" 1200] :=
  ⟨⟨⟨⟨rfl, rfl, rfl, rfl⟩, ⟨by decide, by decide⟩⟩, Or.inl (by decide)⟩,
    congrArg Prod.fst
      ((resolution_defaults_and_limits { width := 1280 }
          ⟨true, true, .ok, 1920, .ok, 1200, true, true, .ok, 1920, .ok, 1200, .ok, .ok⟩
          ⟨rfl, rfl, rfl, rfl⟩ ⟨rfl, rfl, rfl, rfl⟩ ⟨by decide, by decide⟩ ⟨rfl, rfl⟩).2.2.2.1
        (Or.inl (by decide)) (by decide) (by decide))⟩

/-! ## Theorems: frame-rate filter reports -/

/-- C21: for a positive report interval r, with f the frame count and e the
elapsed time after the current frame has been added: if e < r nothing is
reported and the totals f and e are kept; if e = r the report uses all f
frames and elapsed r, and the totals become 0; if e > r the report uses f - 1
frames and elapsed e - (e mod r), which is a multiple of r, does not exceed e
and is the largest such multiple, and the totals become 1 frame and e mod r. -/
theorem report_uses_largest_multiple (s : GstFpsFilter) (time : Nat)
    (hr : 0 < s.reporttime) :
    (s.elapsedtime + ((time : Int) - s.lastframetime) < s.reporttime →
        gst_fps_filter_chain s true time
          = some ({ s with frames := s.frames + 1,
                           elapsedtime := s.elapsedtime + ((time : Int) - s.lastframetime),
                           lastframetime := time }, none))
      ∧ (s.elapsedtime + ((time : Int) - s.lastframetime) = s.reporttime →
          gst_fps_filter_chain s true time
            = some ({ s with frames := 0, elapsedtime := 0, lastframetime := time },
                    some ⟨s.frames + 1, s.reporttime⟩))
      ∧ (s.elapsedtime + ((time : Int) - s.lastframetime) > s.reporttime →
          gst_fps_filter_chain s true time
              = some ({ s with frames := 1,
                               elapsedtime :=
                                 (s.elapsedtime + ((time : Int) - s.lastframetime)) % s.reporttime,
                               lastframetime := time },
                      some ⟨s.frames + 1 - 1,
                        s.elapsedtime + ((time : Int) - s.lastframetime)
                          - (s.elapsedtime + ((time : Int) - s.lastframetime)) % s.reporttime⟩)
            ∧ s.reporttime ∣ (s.elapsedtime + ((time : Int) - s.lastframetime)
                - (s.elapsedtime + ((time : Int) - s.lastframetime)) % s.reporttime)
            ∧ s.elapsedtime + ((time : Int) - s.lastframetime)
                - (s.elapsedtime + ((time : Int) - s.lastframetime)) % s.reporttime
              ≤ s.elapsedtime + ((time : Int) - s.lastframetime)
            ∧ ∀ m : Int, s.reporttime ∣ m →
                m ≤ s.elapsedtime + ((time : Int) - s.lastframetime) →
                m ≤ s.elapsedtime + ((time : Int) - s.lastframetime)
                  - (s.elapsedtime + ((time : Int) - s.lastframetime)) % s.reporttime) := by
  generalize he : s.elapsedtime + ((time : Int) - s.lastframetime) = e
  have hchain : gst_fps_filter_chain s true time
      = if e ≥ s.reporttime then
          if e ≠ s.reporttime then
            if s.reporttime = 0 then none
            else some ({ s with frames := s.frames + 1 - (s.frames + 1 - 1),
                                elapsedtime := e - (e - Int.tmod e s.reporttime),
                                lastframetime := time },
                       some ⟨s.frames + 1 - 1, e - Int.tmod e s.reporttime⟩)
          else some ({ s with frames := s.frames + 1 - (s.frames + 1),
                              elapsedtime := e - e, lastframetime := time },
                     some ⟨s.frames + 1, e⟩)
        else some ({ s with frames := s.frames + 1, elapsedtime := e,
                            lastframetime := time }, none) := by
    simp only [gst_fps_filter_chain, if_true, he]
  rw [hchain]
  have hr0 : s.reporttime ≠ 0 := by omega
  refine ⟨?_, ?_, ?_⟩
  · intro hlt
    have : ¬ e ≥ s.reporttime := by omega
    simp only [this, if_false]
  · intro heq
    simp only [heq, ge_iff_le, le_refl, if_true, ne_eq, not_true_eq_false, if_false,
      sub_self]
  · intro hgt
    have hge : e ≥ s.reporttime := by omega
    have hne : e ≠ s.reporttime := by omega
    have hnn : 0 ≤ e := by omega
    have hmod : Int.tmod e s.reporttime = e % s.reporttime :=
      Int.tmod_eq_emod hnn (le_of_lt hr)
    have hm0 : 0 ≤ e % s.reporttime := Int.emod_nonneg e hr0
    have hf : s.frames + 1 - (s.frames + 1 - 1) = 1 := by omega
    have hel : e - (e - e % s.reporttime) = e % s.reporttime := by omega
    refine ⟨?_, ?_, ?_, ?_⟩
    · simp only [hge, hne, hr0, if_true, if_false, ne_eq, not_false_eq_true, hmod, hf, hel]
    · exact Int.dvd_sub_of_emod_eq rfl
    · omega
    · rintro m ⟨k, rfl⟩ hle
      have hk : k ≤ e / s.reporttime :=
        Int.le_ediv_of_mul_le hr (by rw [Int.mul_comm]; exact hle)
      have hdecomp : e - e % s.reporttime = s.reporttime * (e / s.reporttime) := by
        have := Int.emod_add_ediv e s.reporttime
        omega
      rw [hdecomp]
      exact Int.mul_le_mul_of_nonneg_left hk (le_of_lt hr)

/-- C21, an instance: interval 1000, one frame counted and 990 ms elapsed, and
a frame 30 ms later. -/
theorem report_uses_largest_multiple_witness :
    ((0 : Int) < 1000 ∧ (990 : Int) + (((5030 : Nat) : Int) - 5000) > 1000)
      ∧ gst_fps_filter_chain ⟨33, 5000, 990, 1000⟩ true 5030
        = some (⟨1, 5030, 20, 1000⟩, some ⟨33, 1000⟩) :=
  ⟨⟨by decide, by decide⟩,
    ((report_uses_largest_multiple ⟨33, 5000, 990, 1000⟩ 5030 (by decide)).2.2
      (by decide)).1⟩

/-- C27, the code at the failing input: the declared range of `reporttime`
starts at 0, and with `reporttime` set to 0 a first frame at clock time
5000 ms reaches `elapsedtime % reporttime` with elapsed 5000 and divisor 0:
the call has no result. -/
theorem zero_report_interval_divides_by_zero :
    gst_fps_filter_class_init.minimum = 0
      ∧ (gst_fps_filter_set_property gst_fps_filter_init 0).reporttime = 0
      ∧ gst_fps_filter_chain (gst_fps_filter_set_property gst_fps_filter_init 0) true 5000
        = none := by
  refine ⟨rfl, by decide, by decide⟩

/-- C28, the code at the failing input: with the interval at 1000 ms, a first
frame at clock time 5000 ms logs a report of 0 frames over 5000 ms; and after
a first frame at exactly 1000 ms (a report of 1 frame, totals back to 0) a
frame 2500 ms later logs a report of 0 frames over 2000 ms. -/
theorem report_can_cover_zero_frames :
    gst_fps_filter_run gst_fps_filter_init [(true, 5000)]
        = some [(⟨1, 5000, 0, 1000⟩, some ⟨0, 5000⟩)]
      ∧ gst_fps_filter_run gst_fps_filter_init [(true, 1000), (true, 3500)]
        = some [(⟨0, 1000, 0, 1000⟩, some ⟨1, 1000⟩),
                (⟨1, 3500, 500, 1000⟩, some ⟨0, 2000⟩)] := by
  constructor <;> decide

/-! ## Theorems: orientation, frame-rate cap, colour transformation, demosaicing -/

/-- C22, the code at the failing input: the test of ReverseY sits inside the
`else` branch of the test of ReverseX.  With ReverseX implemented and
ReverseY not, a requested flipx is not written to ReverseX and stays set in
the element; with ReverseX not implemented and ReverseY implemented, a
requested flipy is not written to ReverseY and stays set; with neither
implemented, the flag of the unsupported Y axis stays set. -/
theorem flip_axes_are_not_independent :
    gst_pylonsrc_start_flip { flipx := true } ⟨true, false, .ok, .ok⟩
        = ([], .ok { flipx := true, flipy := false })
      ∧ gst_pylonsrc_start_flip { flipy := true } ⟨false, true, .ok, .ok⟩
        = ([], .ok { flipx := false, flipy := true })
      ∧ gst_pylonsrc_start_flip { flipx := true, flipy := true } ⟨false, false, .ok, .ok⟩
        = ([], .ok { flipx := false, flipy := true })
      ∧ gst_pylonsrc_start_flip { flipx := true, flipy := true } ⟨true, true, .ok, .ok⟩
        = ([.PylonDeviceSetBooleanFeature "ReverseX" true,
            .PylonDeviceSetBooleanFeature "ReverseY" true],
           .ok { flipx := true, flipy := true }) := by
  refine ⟨rfl, rfl, rfl, rfl⟩

/-- C26: on a device that offers AcquisitionFrameRateEnable and
AcquisitionFrameRate, AcquisitionFrameRateEnable is written TRUE exactly when
the enable flag is set or a nonzero fps is requested, and FALSE exactly
otherwise; and, the device accepting that write, AcquisitionFrameRate is
written exactly when the cap is enabled and the requested fps is nonzero, and
only with the requested value. -/
theorem framerate_cap_writes (pylonsrc : GstPylonsrc) (dev : FramerateReply)
    (havail : dev.availEnable = true ∧ dev.availRate = true) :
    (Call.PylonDeviceSetBooleanFeature "AcquisitionFrameRateEnable" true
          ∈ (gst_pylonsrc_start_framerate pylonsrc dev).1
        ↔ (pylonsrc.setFPS = true ∨ pylonsrc.fps ≠ 0))
      ∧ (Call.PylonDeviceSetBooleanFeature "AcquisitionFrameRateEnable" false
            ∈ (gst_pylonsrc_start_framerate pylonsrc dev).1
          ↔ ¬ (pylonsrc.setFPS = true ∨ pylonsrc.fps ≠ 0))
      ∧ (dev.setEnable = .ok →
          (Call.PylonDeviceSetFloatFeature "AcquisitionFrameRate" pylonsrc.fps
              ∈ (gst_pylonsrc_start_framerate pylonsrc dev).1
            ↔ ((pylonsrc.setFPS = true ∨ pylonsrc.fps ≠ 0) ∧ pylonsrc.fps ≠ 0)))
      ∧ (∀ v, Call.PylonDeviceSetFloatFeature "AcquisitionFrameRate" v
            ∈ (gst_pylonsrc_start_framerate pylonsrc dev).1 → v = pylonsrc.fps) := by
  obtain ⟨a1, a2⟩ := havail
  by_cases hset : pylonsrc.setFPS = true <;> by_cases hfps : pylonsrc.fps = 0 <;>
    cases he : dev.setEnable <;> cases hrt : dev.setRate <;>
    simp [gst_pylonsrc_start_framerate, a1, a2, hset, hfps, he, hrt]

/-- C26, an instance: fps 30 requested without the enable flag, on a device
that offers both features and accepts the writes. -/
theorem framerate_cap_writes_witness :
    (true = true ∧ true = true)
      ∧ (Call.PylonDeviceSetBooleanFeature "AcquisitionFrameRateEnable" true
            ∈ (gst_pylonsrc_start_framerate { fps := 30 } ⟨true, .ok, true, .ok⟩).1
          ↔ ((false = true) ∨ (30 : ℚ) ≠ 0)) :=
  ⟨⟨rfl, rfl⟩, (framerate_cap_writes { fps := 30 } ⟨true, .ok, true, .ok⟩ ⟨rfl, rfl⟩).1⟩

/-- C24, the code at the failing input: on a device that offers
ColorTransformationSelector and accepts every write, the documented value
YUVRGB fails with the invalid-parameters error and nothing is written (the
branch that would select YUVtoRGB repeats the test for "rgbyuv"); RGBRGB and
RGBYUV select RGBtoRGB and RGBtoYUV. -/
theorem yuvrgb_is_rejected :
    gst_pylonsrc_start_transformation { transformationselector := "YUVRGB" } true
        (fun _ => .ok) = ([], some (.element "Invalid parameters provided"))
      ∧ gst_pylonsrc_start_transformation { transformationselector := "RGBRGB" } true
          (fun _ => .ok)
        = ([.PylonDeviceFeatureFromString "ColorTransformationSelector" "RGBtoRGB"], none)
      ∧ gst_pylonsrc_start_transformation { transformationselector := "RGBYUV" } true
          (fun _ => .ok)
        = ([.PylonDeviceFeatureFromString "ColorTransformationSelector" "RGBtoYUV"], none) := by
  refine ⟨by decide, by decide, by decide⟩

/-- C25, the code at the failing input: a requested value 1 for cell (0,0)
writes "Gain00" to ColorTransformationSelector and the value to
ColorTransformationValueSelector, while the same request for cell (0,1) (as
for the seven other cells) writes "Gain01" to ColorTransformationValueSelector
and the value to ColorTransformationValue. -/
theorem transformation00_uses_other_features :
    gst_pylonsrc_start_transformation { transformation00 := 1 } true (fun _ => .ok)
        = ([.PylonDeviceFeatureFromString "ColorTransformationSelector" "Gain00",
            .PylonDeviceSetFloatFeature "ColorTransformationValueSelector" 1], none)
      ∧ gst_pylonsrc_start_transformation { transformation01 := 1 } true (fun _ => .ok)
        = ([.PylonDeviceFeatureFromString "ColorTransformationValueSelector" "Gain01",
            .PylonDeviceSetFloatFeature "ColorTransformationValue" 1], none)
      ∧ gst_pylonsrc_start_transformation { transformation22 := 1 } true (fun _ => .ok)
        = ([.PylonDeviceFeatureFromString "ColorTransformationValueSelector" "Gain22",
            .PylonDeviceSetFloatFeature "ColorTransformationValue" 1], none)
      ∧ gst_pylonsrc_start_transformation gst_pylonsrc_init true (fun _ => .ok)
        = ([], none) := by
  refine ⟨by decide, by decide, by decide, by decide⟩

/-- The writes of DemosaicingMode: on a device that implements the feature,
with a Bayer output format, "Simple" is written exactly when demosaicing,
noise reduction or sharpness enhancement was requested, and without a request
nothing is written; "BaslerPGI" is written exactly when the device implements
the feature, the output is not Bayer and at least one of the three was
requested. -/
theorem gst_pylonsrc_start_basler_pgi_writes (pylonsrc : GstPylonsrc) (dev : DemosaicingReply) :
    (dev.implDemosaicingMode = true → pylonsrc.imageFormat.take 5 = "bayer" →
        ((Call.PylonDeviceFeatureFromString "DemosaicingMode" "Simple"
              ∈ (gst_pylonsrc_start_basler_pgi pylonsrc dev).1
            ↔ (pylonsrc.demosaicing = true ∨ pylonsrc.sharpnessenhancement ≠ 999
                ∨ pylonsrc.noisereduction ≠ 999))
          ∧ (¬ (pylonsrc.demosaicing = true ∨ pylonsrc.sharpnessenhancement ≠ 999
                ∨ pylonsrc.noisereduction ≠ 999) →
              gst_pylonsrc_start_basler_pgi pylonsrc dev = ([], none))))
      ∧ (Call.PylonDeviceFeatureFromString "DemosaicingMode" "BaslerPGI"
            ∈ (gst_pylonsrc_start_basler_pgi pylonsrc dev).1
          ↔ (dev.implDemosaicingMode = true
              ∧ (pylonsrc.demosaicing = true ∨ pylonsrc.sharpnessenhancement ≠ 999
                  ∨ pylonsrc.noisereduction ≠ 999)
              ∧ pylonsrc.imageFormat.take 5 ≠ "bayer")) := by
  constructor
  · intro himpl hbayer
    by_cases hreq : pylonsrc.demosaicing = true ∨ pylonsrc.sharpnessenhancement ≠ 999
        ∨ pylonsrc.noisereduction ≠ 999
    · cases hm : dev.setMode <;>
        simp [gst_pylonsrc_start_basler_pgi, himpl, hbayer, hreq, hm]
    · simp [gst_pylonsrc_start_basler_pgi, himpl, hreq]
  · by_cases himpl : dev.implDemosaicingMode = true
    · by_cases hreq : pylonsrc.demosaicing = true ∨ pylonsrc.sharpnessenhancement ≠ 999
          ∨ pylonsrc.noisereduction ≠ 999
      · by_cases hbayer : pylonsrc.imageFormat.take 5 = "bayer"
        · cases hm : dev.setMode <;>
            simp [gst_pylonsrc_start_basler_pgi, himpl, hbayer, hreq, hm]
        · cases hm : dev.setMode
          · simp only [gst_pylonsrc_start_basler_pgi, himpl, hreq, hbayer, hm, if_true,
              ne_eq, not_false_eq_true, true_and, and_self]
            simp
          · simp [gst_pylonsrc_start_basler_pgi, himpl, hbayer, hreq, hm]
      · simp [gst_pylonsrc_start_basler_pgi, himpl, hreq]
    · simp [gst_pylonsrc_start_basler_pgi, himpl]

/-- C23, the code at the failing input: on a device that implements
DemosaicingMode and accepts every write, with the Bayer format bayer8 (the
default) and none of demosaicing, noise reduction and sharpness enhancement
requested, the block writes nothing: DemosaicingMode is not set to "Simple"
and keeps whatever mode the camera has stored.  The write of "Simple" is made
only inside the branch for a request: the same element with demosaicing
requested writes it.  Without a request nothing is written for a non-Bayer
format either, so `demosaicing = false` never selects the simple mode. -/
theorem demosaicing_untouched_without_request :
    gst_pylonsrc_init.imageFormat = "bayer8"
      ∧ gst_pylonsrc_start_basler_pgi gst_pylonsrc_init ⟨true, .ok, true, true⟩ = ([], none)
      ∧ gst_pylonsrc_start_basler_pgi { demosaicing := true } ⟨true, .ok, true, true⟩
        = ([.PylonDeviceFeatureFromString "DemosaicingMode" "Simple"], none)
      ∧ gst_pylonsrc_start_basler_pgi { imageFormat := "rgb8" } ⟨true, .ok, true, true⟩
        = ([], none) := by
  refine ⟨by decide, by decide, by decide, by decide⟩

/-! ## Theorems: caps negotiation -/

/-- C29: for every element with a Bayer image format and a connected device,
`gst_pylonsrc_get_caps` reports the media type video/x-bayer and, for every
(flipx, flipy), the format string that tiles the filter pattern which
`gst_pylonsrc_start` uses for the device pixel format: BG gives "bggr", GB
gives "gbrg", GR gives "grbg", RG gives "rggb". -/
theorem bayer_caps_match_device_pattern (pylonsrc : GstPylonsrc)
    (hbayer : pylonsrc.imageFormat.take 5 = "bayer") :
    gst_pylonsrc_get_caps pylonsrc true
        = some { mediaType := "video/x-bayer",
                 format := bayerTiling
                   (gst_pylonsrc_start_bayer_filter pylonsrc.flipx pylonsrc.flipy),
                 width := pylonsrc.width, height := pylonsrc.height }
      ∧ bayerTiling (gst_pylonsrc_start_bayer_filter false false) = "bggr"
      ∧ bayerTiling (gst_pylonsrc_start_bayer_filter true false) = "gbrg"
      ∧ bayerTiling (gst_pylonsrc_start_bayer_filter false true) = "grbg"
      ∧ bayerTiling (gst_pylonsrc_start_bayer_filter true true) = "rggb" := by
  refine ⟨?_, by decide, by decide, by decide, by decide⟩
  cases hx : pylonsrc.flipx <;> cases hy : pylonsrc.flipy <;>
    simp [gst_pylonsrc_get_caps, hbayer, hx, hy, bayerTiling, gst_pylonsrc_start_bayer_filter]

/-- C29, an instance: bayer8 with flipx set. -/
theorem bayer_caps_match_device_pattern_witness :
    ("bayer8".take 5 = "bayer")
      ∧ gst_pylonsrc_get_caps { flipx := true, width := 1920, height := 1200 } true
        = some { mediaType := "video/x-bayer",
                 format := bayerTiling (gst_pylonsrc_start_bayer_filter true false),
                 width := 1920, height := 1200 } :=
  ⟨by decide,
    (bayer_caps_match_device_pattern { flipx := true, width := 1920, height := 1200 }
      (by decide)).1⟩

/-- C30: for every element whose image format the if-chain of
`gst_pylonsrc_start` accepts on a device that offers every format (a format
that starts with bayer, rgb8, bgr8, ycbcr422_8 or mono8), with any flip flags
and a connected device, `gst_pylonsrc_get_caps` advertises caps that
`gst_pylonsrc_set_caps` accepts, and their width and height are the width and
height of the element. -/
theorem advertised_caps_are_accepted (pylonsrc : GstPylonsrc) (pixelFormat : String)
    (haccepted : gst_pylonsrc_start_pixel_format_name pylonsrc (fun _ => true)
      = .ok pixelFormat) :
    ∃ caps, gst_pylonsrc_get_caps pylonsrc true = some caps
      ∧ gst_pylonsrc_set_caps pylonsrc caps = true
      ∧ caps.width = pylonsrc.width ∧ caps.height = pylonsrc.height := by
  by_cases hb : pylonsrc.imageFormat.take 5 = "bayer"
  · refine ⟨_, by simp only [gst_pylonsrc_get_caps, hb, if_true]; rfl, ?_, rfl, rfl⟩
    simp [gst_pylonsrc_set_caps, hb]
  · have hget : gst_pylonsrc_get_caps pylonsrc true
        = some { mediaType := "video/x-raw",
                 format :=
                   if pylonsrc.imageFormat = "rgb8" then "RGB"
                   else if pylonsrc.imageFormat = "bgr8" then "BGR"
                   else if pylonsrc.imageFormat = "ycbcr422_8" then "YUY2"
                   else if pylonsrc.imageFormat = "mono8" then "GRAY8"
                   else "",
                 width := pylonsrc.width, height := pylonsrc.height } := by
      simp [gst_pylonsrc_get_caps, hb]
    refine ⟨_, hget, ?_, rfl, rfl⟩
    simp only [gst_pylonsrc_set_caps, if_neg hb]
    by_cases h1 : pylonsrc.imageFormat = "rgb8"
    · simp [h1]
    · by_cases h2 : pylonsrc.imageFormat = "bgr8"
      · simp [h2]
      · by_cases h3 : pylonsrc.imageFormat = "ycbcr422_8"
        · simp [h3]
        · by_cases h4 : pylonsrc.imageFormat = "mono8"
          · simp [h4]
          · simp [gst_pylonsrc_start_pixel_format_name, hb, h1, h2, h3, h4] at haccepted

/-- C30, an instance: mono8 at 1920 x 1200. -/
theorem advertised_caps_are_accepted_witness :
    gst_pylonsrc_start_pixel_format_name
        { imageFormat := "mono8", width := 1920, height := 1200 } (fun _ => true) = .ok "Mono8"
      ∧ ∃ caps, gst_pylonsrc_get_caps { imageFormat := "mono8", width := 1920, height := 1200 }
            true = some caps
          ∧ gst_pylonsrc_set_caps { imageFormat := "mono8", width := 1920, height := 1200 } caps
            = true
          ∧ caps.width = 1920 ∧ caps.height = 1200 :=
  ⟨rfl,
    advertised_caps_are_accepted { imageFormat := "mono8", width := 1920, height := 1200 }
      "Mono8" rfl⟩

end PylonSrc
